import Mathlib

/-! # janestreet_cpuid: the C stubs of `src/cpuid_stubs.c`

A shallow embedding of the five OCaml primitives of `cpuid_stubs.c` and the
properties of their decoding.

Modelling conventions.

* A C `uint32_t` is a `Nat`; every store into a `uint32_t` lvalue reduces
  modulo `2 ^ 32`.  An OCaml `value` that is an immediate is the raw 64-bit
  machine word (a `Nat` below `2 ^ 64`).
* An OCaml record is the list of its fields; `Store_field` is `List.set`.
  The stubs mutate the records they are given, so every stub returns the
  records after the call next to its C return value.
* The processor is a parameter: the answer of the CPUID instruction to each
  (leaf, sub-leaf), together with the log of the queries executed so far.
* On x86 (the only target that has `<cpuid.h>`) memory is little-endian and
  bit-fields are allocated from the least significant bit upwards, in
  declaration order.
* The state a stub can reach between two calls is the processor, the records
  it is handed and the memory under its locals and its fresh block; the
  `_on_stack` and `_on_block` forms of two stubs take that memory as found.
-/

namespace Cpuid

/-! ## Machine integers and OCaml values -/

/-- Conversion to `uint32_t`: reduction modulo `2 ^ 32`. -/
def to_uint32 (x : Int) : Nat := (x % 2 ^ 32).toNat

/-- Conversion to `int` (32-bit, two's complement wrap-around as done by gcc). -/
def to_int (x : Int) : Int := (x + 2 ^ 31) % 2 ^ 32 - 2 ^ 31

/-- The signed reading (`intnat`) of a 64-bit machine word. -/
def intnat (w : Nat) : Int :=
  if w % 2 ^ 64 < 2 ^ 63 then ((w % 2 ^ 64 : Nat) : Int) else ((w % 2 ^ 64 : Nat) : Int) - 2 ^ 64

/-- The machine word (`uintnat`) of a signed 64-bit integer. -/
def uintnat (x : Int) : Nat := (x % 2 ^ 64).toNat

/-- An OCaml value as the stubs see it: an immediate machine word (a tagged
integer, `Val_unit`) or a pointer to a heap string, given by its bytes. -/
inductive Value where
  | imm (w : Nat)
  | str (bytes : List Nat)
deriving DecidableEq, Repr

/-- The runtime's `Val_long(x)`, `((intnat) (((uintnat)(intnat)(x) << 1)) + 1)`
of `<caml/mlvalues.h>`, as a machine word. -/
def Val_long (x : Int) : Nat := uintnat (intnat (uintnat x * 2 % 2 ^ 64) + 1)

/-- The runtime's `Val_int(x)`, which is `Val_long(x)`; the stubs apply it to
`uint32_t` values only. -/
def Val_int (x : Nat) : Value := Value.imm (Val_long (x : Int))

/-- The runtime's `Long_val(x)`, `((x) >> 1)` on the signed word. -/
def Long_val (v : Nat) : Int := intnat v / 2

/-- The runtime's `Int_val(x)`, `((int) Long_val(x))`. -/
def Int_val (v : Nat) : Int := to_int (Long_val v)

/-- The runtime's `Val_unit`, `Val_int(0)`. -/
def Val_unit : Value := Val_int 0

/-- The OCaml integer an immediate value denotes; a pointer denotes none. -/
def Value.toInt? : Value → Option Int
  | Value.imm w => some (Long_val w)
  | Value.str _ => none

/-- The runtime's `Store_field(block, offset, val)` on the fields of a block. -/
def Store_field (block : List Value) (offset : Nat) (val : Value) : List Value :=
  block.set offset val

/-- The runtime's `caml_alloc_local(wosize, tag)`: a fresh block of `wosize`
fields (the stub stores into every one of them before returning). -/
def caml_alloc_local (wosize : Nat) (_tag : Nat) : List Value :=
  List.replicate wosize Val_unit

/-- The OCaml integer in slot `i` of a record, when the slot exists and holds
an immediate. -/
def slot_int (block : List Value) (i : Nat) : Option Int :=
  block[i]?.bind Value.toInt?

/-! ## The processor -/

/-- The four output registers of one CPUID execution. -/
structure Regs where
  eax : Nat
  ebx : Nat
  ecx : Nat
  edx : Nat
deriving DecidableEq, Repr

/-- Every register holds a 32-bit value. -/
def Regs.is32 (r : Regs) : Prop :=
  r.eax < 2 ^ 32 ∧ r.ebx < 2 ^ 32 ∧ r.ecx < 2 ^ 32 ∧ r.edx < 2 ^ 32

instance (r : Regs) : Decidable r.is32 := by
  unfold Regs.is32; infer_instance

/-- The processor executing the stubs: the answer of the CPUID instruction to
each (leaf in EAX, sub-leaf in ECX), and the queries executed so far. -/
structure Hw where
  cpuid : Nat → Nat → Regs
  log : List (Nat × Nat)

/-- The macro `__cpuid_count(level, count, a, b, c, d)` of gcc's `<cpuid.h>`:
executes CPUID with `level` in EAX and `count` in ECX and assigns the
resulting EAX, EBX, ECX, EDX to the lvalues `a`, `b`, `c`, `d`, which are
`uint32_t` at every call site.  Returns the four assigned values, in the
order `a`, `b`, `c`, `d`. -/
def __cpuid_count (hw : Hw) (level count : Nat) : Regs × Hw :=
  let r := hw.cpuid (level % 2 ^ 32) (count % 2 ^ 32)
  ({ eax := r.eax % 2 ^ 32, ebx := r.ebx % 2 ^ 32, ecx := r.ecx % 2 ^ 32, edx := r.edx % 2 ^ 32 },
   { hw with log := hw.log ++ [(level % 2 ^ 32, count % 2 ^ 32)] })

def MAXIMUM_VALUE_AND_BRAND_LEAF : Nat := 0x00
def VERSION_AND_FEATURE_INFORMATION_LEAF : Nat := 0x01
def STRUCTURED_EXTENDED_FEATURE_FLAGS_LEAF : Nat := 0x07
def ARCHITECTURAL_PERFORMANCE_MONITORING_LEAF : Nat := 0x0a

/-! ## Bit-fields and the unions of the stubs -/

/-- Read the bit-field `name` of a struct of `uint32_t` bit-fields overlaid on
the register `reg`.  The struct is given by its `FIELD(name, width)`
declarations in order; the first field occupies the least significant bits
and each field follows the previous one. -/
def read_field : List (String × Nat) → String → Nat → Nat
  | [], _, _ => 0
  | (n, width) :: rest, name, reg =>
    if n = name then reg % 2 ^ width else read_field rest name (reg / 2 ^ width)

/-- The struct `info` overlaid on EAX in `amd_cpuid_version_and_feature_information`. -/
def amd_eax_info : List (String × Nat) :=
  [("step", 4), ("model", 4), ("family", 4), ("pad1", 4), ("emodel", 4), ("efamily", 8),
   ("pad2", 4)]

/-- The struct `info` overlaid on EAX in `intel_cpuid_version_and_feature_information`. -/
def intel_eax_info : List (String × Nat) :=
  [("step", 4), ("model", 4), ("family", 4), ("type", 2), ("pad1", 2), ("emodel", 4),
   ("efamily", 8), ("pad2", 4)]

/-- The struct `info` overlaid on EBX in both version functions. -/
def ebx_info : List (String × Nat) :=
  [("brand_index", 8), ("clflush_line_size", 8), ("max_addressable_logical_processors", 8),
   ("initial_apic_id", 8)]

/-- The four bytes of a `uint32_t` in memory, lowest address first. -/
def bytes_of_uint32 (x : Nat) : List Nat :=
  [x % 256, x / 2 ^ 8 % 256, x / 2 ^ 16 % 256, x / 2 ^ 24 % 256]

/-- Write the bytes `bs` into the memory `mem` from offset `off` on. -/
def write_bytes : List Nat → Nat → List Nat → List Nat
  | mem, _, [] => mem
  | mem, off, b :: bs => write_bytes (mem.set off b) (off + 1) bs

/-- Store a `uint32_t` at byte offset `off` of `mem`. -/
def store_uint32 (mem : List Nat) (off : Nat) (x : Nat) : List Nat :=
  write_bytes mem off (bytes_of_uint32 x)

/-- The byte offset of the member `name` in a struct whose members, in
declaration order, are all `uint32_t`. -/
def member_offset : List String → String → Nat
  | [], _ => 0
  | n :: rest, name => if n = name then 0 else 4 + member_offset rest name

/-- The struct `regs` of the union `brand` in `cpuid_maximum_value_and_brand`. -/
def brand_regs : List String := ["ebx", "edx", "ecx"]

/-- The value of `sizeof(brand)`: the union of `char text[13]` and three
`uint32_t`, rounded up to the alignment of `uint32_t`. -/
def sizeof_brand : Nat := 16

/-- The C library's `strlen` on a buffer: the number of bytes before the first
zero byte, and `none` when the buffer holds no zero byte (the scan would
leave the buffer). -/
def strlen : List Nat → Option Nat
  | [] => none
  | c :: s => if c = 0 then some 0 else (strlen s).map (· + 1)

/-- The runtime's `caml_copy_string(s)`: a fresh OCaml string holding the
`strlen(s)` bytes of the C string `s`. -/
def caml_copy_string (s : List Nat) : Option Value :=
  (strlen s).map fun len => Value.str (s.take len)

/-! ## The stubs -/

/-- The state after a stub that is given one record. -/
structure Result1 where
  ret : Value
  v_record : List Value
  hw : Hw

/-- The state after a stub that is given three records. -/
structure Result3 where
  ret : Value
  v_eax : List Value
  v_ebx : List Value
  v_record : List Value
  hw : Hw

/-- The stub `cpuid_arbitrary_leaf_and_subleaf(v_eax, v_ecx)`; both arguments are
OCaml integers, that is immediate words.  Returns the fields of the block
it allocates. -/
def cpuid_arbitrary_leaf_and_subleaf (hw : Hw) (v_eax v_ecx : Nat) : List Value × Hw :=
  let in_eax := to_uint32 (Int_val v_eax)
  let in_ecx := to_uint32 (Int_val v_ecx)
  let (r, hw) := __cpuid_count hw in_eax in_ecx
  let result := caml_alloc_local 4 0
  let result := Store_field result 0 (Val_int r.eax)
  let result := Store_field result 1 (Val_int r.ebx)
  let result := Store_field result 2 (Val_int r.ecx)
  let result := Store_field result 3 (Val_int r.edx)
  (result, hw)

/-- The contents of `brand.text` when `caml_copy_string` reads it: the union is
zeroed, then `__cpuid_count` assigns EBX, ECX, EDX to `brand.regs.ebx`,
`brand.regs.ecx`, `brand.regs.edx`. -/
def brand_text (r : Regs) : List Nat :=
  let brand := List.replicate sizeof_brand 0
  let brand := store_uint32 brand (member_offset brand_regs "ebx") r.ebx
  let brand := store_uint32 brand (member_offset brand_regs "ecx") r.ecx
  let brand := store_uint32 brand (member_offset brand_regs "edx") r.edx
  brand.take 13

/-- The stub `cpuid_maximum_value_and_brand(v_record)`; `none` stands for a
`strlen` that leaves the buffer. -/
def cpuid_maximum_value_and_brand (hw : Hw) (v_record : List Value) : Option Result1 :=
  let (r, hw) := __cpuid_count hw MAXIMUM_VALUE_AND_BRAND_LEAF 0
  let v_record := Store_field v_record 0 (Val_int r.eax)
  match caml_copy_string (brand_text r) with
  | none => none
  | some v_brand_string =>
    let v_record := Store_field v_record 1 v_brand_string
    some { ret := Val_unit, v_record := v_record, hw := hw }

/-- The stub `amd_cpuid_version_and_feature_information(v_eax, v_ebx, v_record)`. -/
def amd_cpuid_version_and_feature_information (hw : Hw) (v_eax v_ebx v_record : List Value) :
    Result3 :=
  let (r, hw) := __cpuid_count hw VERSION_AND_FEATURE_INFORMATION_LEAF 0
  let v_eax := Store_field v_eax 0 (Val_int (read_field amd_eax_info "step" r.eax))
  let v_eax := Store_field v_eax 1 (Val_int (read_field amd_eax_info "model" r.eax))
  let v_eax := Store_field v_eax 2 (Val_int (read_field amd_eax_info "family" r.eax))
  let v_eax := Store_field v_eax 3 (Val_int (read_field amd_eax_info "emodel" r.eax))
  let v_eax := Store_field v_eax 4 (Val_int (read_field amd_eax_info "efamily" r.eax))
  let v_ebx := Store_field v_ebx 0 (Val_int (read_field ebx_info "brand_index" r.ebx))
  let v_ebx := Store_field v_ebx 1 (Val_int (read_field ebx_info "clflush_line_size" r.ebx))
  let v_ebx := Store_field v_ebx 2
    (Val_int (read_field ebx_info "max_addressable_logical_processors" r.ebx))
  let v_ebx := Store_field v_ebx 3 (Val_int (read_field ebx_info "initial_apic_id" r.ebx))
  let v_record := Store_field v_record 2 (Val_int r.ecx)
  let v_record := Store_field v_record 3 (Val_int r.edx)
  { ret := Val_unit, v_eax := v_eax, v_ebx := v_ebx, v_record := v_record, hw := hw }

/-- The stub `intel_cpuid_version_and_feature_information(v_eax, v_ebx, v_record)`. -/
def intel_cpuid_version_and_feature_information (hw : Hw) (v_eax v_ebx v_record : List Value) :
    Result3 :=
  let (r, hw) := __cpuid_count hw VERSION_AND_FEATURE_INFORMATION_LEAF 0
  let v_eax := Store_field v_eax 0 (Val_int (read_field intel_eax_info "step" r.eax))
  let v_eax := Store_field v_eax 1 (Val_int (read_field intel_eax_info "model" r.eax))
  let v_eax := Store_field v_eax 2 (Val_int (read_field intel_eax_info "family" r.eax))
  let v_eax := Store_field v_eax 3 (Val_int (read_field intel_eax_info "type" r.eax))
  let v_eax := Store_field v_eax 4 (Val_int (read_field intel_eax_info "emodel" r.eax))
  let v_eax := Store_field v_eax 5 (Val_int (read_field intel_eax_info "efamily" r.eax))
  let v_ebx := Store_field v_ebx 0 (Val_int (read_field ebx_info "brand_index" r.ebx))
  let v_ebx := Store_field v_ebx 1 (Val_int (read_field ebx_info "clflush_line_size" r.ebx))
  let v_ebx := Store_field v_ebx 2
    (Val_int (read_field ebx_info "max_addressable_logical_processors" r.ebx))
  let v_ebx := Store_field v_ebx 3 (Val_int (read_field ebx_info "initial_apic_id" r.ebx))
  let v_record := Store_field v_record 2 (Val_int r.ecx)
  let v_record := Store_field v_record 3 (Val_int r.edx)
  { ret := Val_unit, v_eax := v_eax, v_ebx := v_ebx, v_record := v_record, hw := hw }

/-- The stub `cpuid_extended_feature_flags_subleaf0(v_record)`. -/
def cpuid_extended_feature_flags_subleaf0 (hw : Hw) (v_record : List Value) : Result1 :=
  let (r, hw) := __cpuid_count hw STRUCTURED_EXTENDED_FEATURE_FLAGS_LEAF 0x0
  let v_record := Store_field v_record 1 (Val_int r.ebx)
  let v_record := Store_field v_record 2 (Val_int r.ecx)
  let v_record := Store_field v_record 3 (Val_int r.edx)
  { ret := Val_int r.eax, v_record := v_record, hw := hw }

/-! ## The stubs on stale memory

Two stubs use memory that something other than `__cpuid_count` must fill:
the union `brand`, whose bytes 12 to 15 no register is assigned to, and the
block `caml_alloc_local` returns.  For these the memory found at the call is
a parameter.  Every other local of the stubs is a scalar or a 4-byte union
that `__cpuid_count` assigns as a whole before it is read, and the source
declares no object with static storage. -/

/-- The C library's `memset(s, c, n)` on the memory `mem` that starts at `s`. -/
def memset (mem : List Nat) (c n : Nat) : List Nat :=
  write_bytes mem 0 (List.replicate n c)

/-- The contents of `brand.text` when `caml_copy_string` reads it, for a union
`brand` that lies on the bytes `stack` of the frame, whatever they held
before the call: first `memset(&brand, 0, sizeof(brand))`, then the three
assignments of `__cpuid_count`. -/
def brand_text_on_stack (stack : List Nat) (r : Regs) : List Nat :=
  let brand := memset stack 0 sizeof_brand
  let brand := store_uint32 brand (member_offset brand_regs "ebx") r.ebx
  let brand := store_uint32 brand (member_offset brand_regs "ecx") r.ecx
  let brand := store_uint32 brand (member_offset brand_regs "edx") r.edx
  brand.take 13

/-- The stub `cpuid_maximum_value_and_brand(v_record)` with its union `brand` on
the frame bytes `stack`. -/
def cpuid_maximum_value_and_brand_on_stack (stack : List Nat) (hw : Hw)
    (v_record : List Value) : Option Result1 :=
  let (r, hw) := __cpuid_count hw MAXIMUM_VALUE_AND_BRAND_LEAF 0
  let v_record := Store_field v_record 0 (Val_int r.eax)
  match caml_copy_string (brand_text_on_stack stack r) with
  | none => none
  | some v_brand_string =>
    let v_record := Store_field v_record 1 v_brand_string
    some { ret := Val_unit, v_record := v_record, hw := hw }

/-- The runtime's `caml_alloc_local(wosize, tag)` when the fields of the new
block are not initialised: they hold the words `fresh` found in the memory
the block is carved from. -/
def caml_alloc_local_on (fresh : List Value) (wosize : Nat) (_tag : Nat) : List Value :=
  fresh.take wosize

/-- The stub `cpuid_arbitrary_leaf_and_subleaf(v_eax, v_ecx)` with its result
block carved from memory that holds the words `fresh`. -/
def cpuid_arbitrary_leaf_and_subleaf_on_block (fresh : List Value) (hw : Hw)
    (v_eax v_ecx : Nat) : List Value × Hw :=
  let in_eax := to_uint32 (Int_val v_eax)
  let in_ecx := to_uint32 (Int_val v_ecx)
  let (r, hw) := __cpuid_count hw in_eax in_ecx
  let result := caml_alloc_local_on fresh 4 0
  let result := Store_field result 0 (Val_int r.eax)
  let result := Store_field result 1 (Val_int r.ebx)
  let result := Store_field result 2 (Val_int r.ecx)
  let result := Store_field result 3 (Val_int r.edx)
  (result, hw)

/-- What the OCaml caller observes of a call with one record: the return value
and the record. -/
def Result1.outputs (o : Result1) : Value × List Value :=
  (o.ret, o.v_record)

/-- What the OCaml caller observes of a call with three records: the return
value and the three records. -/
def Result3.outputs (o : Result3) : Value × List Value × List Value × List Value :=
  (o.ret, o.v_eax, o.v_ebx, o.v_record)

/-! ## The specification's reading of the brand string -/

/-- The four bytes of a register, least significant byte first. -/
def spec_le_bytes (x : Nat) : List Nat :=
  [x / 256 ^ 0 % 256, x / 256 ^ 1 % 256, x / 256 ^ 2 % 256, x / 256 ^ 3 % 256]

/-- The 12-byte concatenation EBX, EDX, ECX, each register least significant
byte first. -/
def spec_brand_bytes (ebx edx ecx : Nat) : List Nat :=
  spec_le_bytes ebx ++ spec_le_bytes edx ++ spec_le_bytes ecx

/-- A byte string with its trailing zero bytes trimmed. -/
def spec_trim_trailing_zeros (l : List Nat) : List Nat :=
  l.rdropWhile (fun b => b == 0)

/-! ## Concrete processors and records -/

/-- A processor that answers every query with the vendor signature of
"GenuineIntel" and EAX = 0x16. -/
def hw_genuine_intel : Hw :=
  { cpuid := fun _ _ => ⟨0x16, 0x756e6547, 0x6c65746e, 0x49656e69⟩, log := [] }

/-- A processor that answers every query with EAX = 0x000906EA,
EBX = 0x12345678, ECX = 0xFFFFFFFF, EDX = 0x80000001. -/
def hw_906ea : Hw :=
  { cpuid := fun _ _ => ⟨0x000906EA, 0x12345678, 0xFFFFFFFF, 0x80000001⟩, log := [] }

/-- A processor whose brand registers are all zero. -/
def hw_zero_brand : Hw :=
  { cpuid := fun _ _ => ⟨0x16, 0, 0, 0⟩, log := [] }

/-- A processor whose EBX holds the bytes 0x41, 0x00, 0x42, 0x00 and whose EDX
and ECX are zero. -/
def hw_inner_zero : Hw :=
  { cpuid := fun _ _ => ⟨0x16, 0x00420041, 0, 0⟩, log := [] }

/-- A processor that echoes the query: EAX = leaf, EBX = sub-leaf,
ECX = 0xFFFFFFFF, EDX = 0x80000001. -/
def hw_echo : Hw :=
  { cpuid := fun leaf subleaf => ⟨leaf, subleaf, 0xFFFFFFFF, 0x80000001⟩, log := [] }

/-- A record of `n` integer fields, all zero. -/
def record_of_size (n : Nat) : List Value := List.replicate n (Val_int 0)

/-- A fresh record for `cpuid_maximum_value_and_brand`: an integer and a string. -/
def brand_record : List Value := [Val_int 0, Value.str []]

/-- A processor that answers every query with EAX = 0xF009C6EA, which differs
from 0x000906EA in bits 15:14 and 31:28 only. -/
def hw_906ea_intel_padding : Hw :=
  { cpuid := fun _ _ => ⟨0xF009C6EA, 0x12345678, 0xFFFFFFFF, 0x80000001⟩, log := [] }

/-- A processor that answers every query with EAX = 0xF009F6EA, which differs
from 0x000906EA in bits 15:12 and 31:28 only. -/
def hw_906ea_amd_padding : Hw :=
  { cpuid := fun _ _ => ⟨0xF009F6EA, 0x12345678, 0xFFFFFFFF, 0x80000001⟩, log := [] }

/-- A processor that answers like `hw_echo` except at leaf 4, where every
register is zero, and that has already executed a query. -/
def hw_echo_variant : Hw :=
  { cpuid := fun leaf subleaf =>
      if leaf = 4 then ⟨0, 0, 0, 0⟩ else ⟨leaf, subleaf, 0xFFFFFFFF, 0x80000001⟩,
    log := [(4, 0)] }

/-- Sixteen frame bytes left behind by earlier calls, none of them zero. -/
def stale_stack : List Nat := List.replicate 16 0xAA

/-- Four words left behind in the memory a block is carved from. -/
def stale_block : List Value := [Value.str [0x41], Value.imm 7, Value.imm 9, Value.str []]

/-! ## Helper lemmas -/

theorem Long_val_Val_long (x : Nat) (h : x < 2 ^ 62) :
    Long_val (Val_long (x : Int)) = (x : Int) := by
  unfold Long_val Val_long uintnat intnat
  have h1 : (((x : Int) % 2 ^ 64).toNat * 2 % 2 ^ 64) = 2 * x := by omega
  rw [h1]
  have h2 : (2 * x) % 2 ^ 64 = 2 * x := by omega
  rw [h2]
  have h3 : 2 * x < 2 ^ 63 := by omega
  rw [if_pos h3]
  have h4 : (((((2 * x : Nat) : Int) + 1) % 2 ^ 64).toNat) = 2 * x + 1 := by omega
  rw [h4]
  have h5 : (2 * x + 1) % 2 ^ 64 = 2 * x + 1 := by omega
  rw [h5]
  have h6 : 2 * x + 1 < 2 ^ 63 := by omega
  rw [if_pos h6]
  omega

theorem toInt?_Val_int (x : Nat) (h : x < 2 ^ 32) : (Val_int x).toInt? = some (x : Int) := by
  have h62 : x < 2 ^ 62 := by omega
  simp [Val_int, Value.toInt?, Long_val_Val_long x h62]

theorem slot_int_set_eq (l : List Value) (i : Nat) (x : Nat) (hi : i < l.length)
    (hx : x < 2 ^ 32) : slot_int (l.set i (Val_int x)) i = some (x : Int) := by
  simp [slot_int, hi, toInt?_Val_int x hx]

theorem slot_int_set_ne (l : List Value) (i j : Nat) (v : Value) (h : i ≠ j) :
    slot_int (l.set i v) j = slot_int l j := by
  simp [slot_int, List.getElem?_set_ne h]

theorem read_amd_step (x : Nat) : read_field amd_eax_info "step" x = x % 2 ^ 4 := by
  simp [read_field, amd_eax_info]

theorem read_amd_model (x : Nat) : read_field amd_eax_info "model" x = x / 2 ^ 4 % 2 ^ 4 := by
  simp [read_field, amd_eax_info]

theorem read_amd_family (x : Nat) : read_field amd_eax_info "family" x = x / 2 ^ 8 % 2 ^ 4 := by
  simp [read_field, amd_eax_info]; omega

theorem read_amd_emodel (x : Nat) : read_field amd_eax_info "emodel" x = x / 2 ^ 16 % 2 ^ 4 := by
  simp [read_field, amd_eax_info]; omega

theorem read_amd_efamily (x : Nat) :
    read_field amd_eax_info "efamily" x = x / 2 ^ 20 % 2 ^ 8 := by
  simp [read_field, amd_eax_info]; omega

theorem read_intel_step (x : Nat) : read_field intel_eax_info "step" x = x % 2 ^ 4 := by
  simp [read_field, intel_eax_info]

theorem read_intel_model (x : Nat) :
    read_field intel_eax_info "model" x = x / 2 ^ 4 % 2 ^ 4 := by
  simp [read_field, intel_eax_info]

theorem read_intel_family (x : Nat) :
    read_field intel_eax_info "family" x = x / 2 ^ 8 % 2 ^ 4 := by
  simp [read_field, intel_eax_info]; omega

theorem read_intel_type (x : Nat) :
    read_field intel_eax_info "type" x = x / 2 ^ 12 % 2 ^ 2 := by
  simp [read_field, intel_eax_info]; omega

theorem read_intel_emodel (x : Nat) :
    read_field intel_eax_info "emodel" x = x / 2 ^ 16 % 2 ^ 4 := by
  simp [read_field, intel_eax_info]; omega

theorem read_intel_efamily (x : Nat) :
    read_field intel_eax_info "efamily" x = x / 2 ^ 20 % 2 ^ 8 := by
  simp [read_field, intel_eax_info]; omega

theorem read_ebx_brand_index (x : Nat) :
    read_field ebx_info "brand_index" x = x % 2 ^ 8 := by
  simp [read_field, ebx_info]

theorem read_ebx_clflush_line_size (x : Nat) :
    read_field ebx_info "clflush_line_size" x = x / 2 ^ 8 % 2 ^ 8 := by
  simp [read_field, ebx_info]

theorem read_ebx_max_addressable (x : Nat) :
    read_field ebx_info "max_addressable_logical_processors" x = x / 2 ^ 16 % 2 ^ 8 := by
  simp [read_field, ebx_info]; omega

theorem read_ebx_initial_apic_id (x : Nat) :
    read_field ebx_info "initial_apic_id" x = x / 2 ^ 24 % 2 ^ 8 := by
  simp [read_field, ebx_info]; omega

theorem brand_text_eq (r : Regs) :
    brand_text r = bytes_of_uint32 r.ebx ++ bytes_of_uint32 r.edx ++ bytes_of_uint32 r.ecx
      ++ [0] := by
  rfl

theorem strlen_terminated (l t : List Nat) :
    strlen (l ++ 0 :: t) = some (l.takeWhile (fun b => b != 0)).length := by
  induction l with
  | nil => simp [strlen]
  | cons c s ih =>
    by_cases hc : c = 0
    · simp [strlen, hc]
    · simp [strlen, hc, ih]

theorem take_length_takeWhile (l t : List Nat) :
    (l ++ 0 :: t).take (l.takeWhile (fun b => b != 0)).length =
      l.takeWhile (fun b => b != 0) := by
  induction l with
  | nil => simp
  | cons c s ih =>
    by_cases hc : c = 0
    · simp [hc]
    · simp [hc, ih]

theorem caml_copy_string_terminated (l t : List Nat) :
    caml_copy_string (l ++ 0 :: t) = some (Value.str (l.takeWhile (fun b => b != 0))) := by
  simp only [caml_copy_string, strlen_terminated, Option.map_some', take_length_takeWhile]

theorem bytes_of_uint32_mod (x : Nat) : bytes_of_uint32 (x % 2 ^ 32) = spec_le_bytes x := by
  simp only [bytes_of_uint32, spec_le_bytes, List.cons.injEq, and_true]
  refine ⟨?_, ?_, ?_, ?_⟩ <;> omega

theorem brand_run (hw : Hw) (v_record : List Value) :
    cpuid_maximum_value_and_brand hw v_record =
      some { ret := Val_unit,
             v_record := (v_record.set 0 (Val_int ((hw.cpuid 0 0).eax % 2 ^ 32))).set 1
               (Value.str ((spec_brand_bytes (hw.cpuid 0 0).ebx (hw.cpuid 0 0).edx
                 (hw.cpuid 0 0).ecx).takeWhile (fun b => b != 0))),
             hw := { hw with log := hw.log ++ [(0, 0)] } } := by
  simp only [cpuid_maximum_value_and_brand, __cpuid_count, MAXIMUM_VALUE_AND_BRAND_LEAF,
    brand_text_eq, bytes_of_uint32_mod, Store_field]
  rw [show spec_le_bytes (hw.cpuid (0 % 2 ^ 32) (0 % 2 ^ 32)).ebx
        ++ spec_le_bytes (hw.cpuid (0 % 2 ^ 32) (0 % 2 ^ 32)).edx
        ++ spec_le_bytes (hw.cpuid (0 % 2 ^ 32) (0 % 2 ^ 32)).ecx ++ [0]
      = spec_brand_bytes (hw.cpuid 0 0).ebx (hw.cpuid 0 0).edx (hw.cpuid 0 0).ecx ++ 0 :: []
      from rfl]
  rw [caml_copy_string_terminated]
  rfl

theorem takeWhile_snoc_zero (l : List Nat) :
    (l ++ [0]).takeWhile (fun b => b != 0) = l.takeWhile (fun b => b != 0) := by
  induction l with
  | nil => simp
  | cons c s ih =>
    by_cases hc : c = 0
    · simp [hc]
    · simp [hc, ih]

theorem takeWhile_eq_trim_iff (l : List Nat) :
    l.takeWhile (fun b => b != 0) = spec_trim_trailing_zeros l ↔
      0 ∉ spec_trim_trailing_zeros l := by
  constructor
  · intro h hmem
    rw [← h] at hmem
    have := List.mem_takeWhile_imp hmem
    simp at this
  · unfold spec_trim_trailing_zeros
    induction l using List.reverseRecOn with
    | nil => simp
    | append_singleton l x ih =>
      rw [List.rdropWhile_concat]
      by_cases hx : x = 0
      · subst hx
        simp only [beq_self_eq_true, if_true]
        intro h
        rw [takeWhile_snoc_zero]
        exact ih h
      · have hx2 : (x == 0) = false := by simpa using hx
        simp only [hx2, Bool.false_eq_true, if_false]
        intro h
        rw [List.takeWhile_eq_self_iff]
        intro y hy
        have : y ≠ 0 := fun h0 => h (h0 ▸ hy)
        simpa using this

theorem set_set_slot1 (l : List Value) (a b : Value) (h : 2 ≤ l.length) :
    ((l.set 0 a).set 1 b)[1]? = some b := by
  rw [List.getElem?_set_self]
  simpa using h

theorem set_set_slot0 (l : List Value) (x : Nat) (b : Value) (h : 2 ≤ l.length)
    (hx : x < 2 ^ 32) : slot_int ((l.set 0 (Val_int x)).set 1 b) 0 = some (x : Int) := by
  rw [slot_int_set_ne _ 1 0 b (by decide)]
  exact slot_int_set_eq l 0 x (by omega) hx

theorem set_0_to_5 (l : List Value) (h : 6 ≤ l.length) (a0 a1 a2 a3 a4 a5 : Value) :
    (((((l.set 0 a0).set 1 a1).set 2 a2).set 3 a3).set 4 a4).set 5 a5
      = a0 :: a1 :: a2 :: a3 :: a4 :: a5 :: l.drop 6 := by
  rcases l with _ | ⟨x0, _ | ⟨x1, _ | ⟨x2, _ | ⟨x3, _ | ⟨x4, _ | ⟨x5, l⟩⟩⟩⟩⟩⟩ <;>
    simp at h ⊢

theorem set_0_to_4 (l : List Value) (h : 5 ≤ l.length) (a0 a1 a2 a3 a4 : Value) :
    ((((l.set 0 a0).set 1 a1).set 2 a2).set 3 a3).set 4 a4
      = a0 :: a1 :: a2 :: a3 :: a4 :: l.drop 5 := by
  rcases l with _ | ⟨x0, _ | ⟨x1, _ | ⟨x2, _ | ⟨x3, _ | ⟨x4, l⟩⟩⟩⟩⟩ <;>
    simp at h ⊢

theorem set_0_to_3 (l : List Value) (h : 4 ≤ l.length) (a0 a1 a2 a3 : Value) :
    (((l.set 0 a0).set 1 a1).set 2 a2).set 3 a3 = a0 :: a1 :: a2 :: a3 :: l.drop 4 := by
  rcases l with _ | ⟨x0, _ | ⟨x1, _ | ⟨x2, _ | ⟨x3, l⟩⟩⟩⟩ <;>
    simp at h ⊢

theorem set_2_3 (l : List Value) (h : 4 ≤ l.length) (a2 a3 : Value) :
    (l.set 2 a2).set 3 a3 = l.take 2 ++ a2 :: a3 :: l.drop 4 := by
  rcases l with _ | ⟨x0, _ | ⟨x1, _ | ⟨x2, _ | ⟨x3, l⟩⟩⟩⟩ <;>
    simp at h ⊢

theorem set_1_2_3 (l : List Value) (h : 4 ≤ l.length) (a1 a2 a3 : Value) :
    ((l.set 1 a1).set 2 a2).set 3 a3 = l.take 1 ++ a1 :: a2 :: a3 :: l.drop 4 := by
  rcases l with _ | ⟨x0, _ | ⟨x1, _ | ⟨x2, _ | ⟨x3, l⟩⟩⟩⟩ <;>
    simp at h ⊢

theorem intel_run (hw : Hw) (v_eax v_ebx v_record : List Value) :
    intel_cpuid_version_and_feature_information hw v_eax v_ebx v_record =
      { ret := Val_unit,
        v_eax := (((((v_eax.set 0 (Val_int ((hw.cpuid 1 0).eax % 2 ^ 4))).set 1
            (Val_int ((hw.cpuid 1 0).eax / 2 ^ 4 % 2 ^ 4))).set 2
            (Val_int ((hw.cpuid 1 0).eax / 2 ^ 8 % 2 ^ 4))).set 3
            (Val_int ((hw.cpuid 1 0).eax / 2 ^ 12 % 2 ^ 2))).set 4
            (Val_int ((hw.cpuid 1 0).eax / 2 ^ 16 % 2 ^ 4))).set 5
            (Val_int ((hw.cpuid 1 0).eax / 2 ^ 20 % 2 ^ 8)),
        v_ebx := (((v_ebx.set 0 (Val_int ((hw.cpuid 1 0).ebx % 2 ^ 8))).set 1
            (Val_int ((hw.cpuid 1 0).ebx / 2 ^ 8 % 2 ^ 8))).set 2
            (Val_int ((hw.cpuid 1 0).ebx / 2 ^ 16 % 2 ^ 8))).set 3
            (Val_int ((hw.cpuid 1 0).ebx / 2 ^ 24 % 2 ^ 8)),
        v_record := (v_record.set 2 (Val_int ((hw.cpuid 1 0).ecx % 2 ^ 32))).set 3
            (Val_int ((hw.cpuid 1 0).edx % 2 ^ 32)),
        hw := { hw with log := hw.log ++ [(1, 0)] } } := by
  have e0 : (hw.cpuid 1 0).eax % 2 ^ 32 % 2 ^ 4 = (hw.cpuid 1 0).eax % 2 ^ 4 := by omega
  have e1 : (hw.cpuid 1 0).eax % 2 ^ 32 / 2 ^ 4 % 2 ^ 4 = (hw.cpuid 1 0).eax / 2 ^ 4 % 2 ^ 4 := by
    omega
  have e2 : (hw.cpuid 1 0).eax % 2 ^ 32 / 2 ^ 8 % 2 ^ 4 = (hw.cpuid 1 0).eax / 2 ^ 8 % 2 ^ 4 := by
    omega
  have e3 : (hw.cpuid 1 0).eax % 2 ^ 32 / 2 ^ 12 % 2 ^ 2
      = (hw.cpuid 1 0).eax / 2 ^ 12 % 2 ^ 2 := by omega
  have e4 : (hw.cpuid 1 0).eax % 2 ^ 32 / 2 ^ 16 % 2 ^ 4
      = (hw.cpuid 1 0).eax / 2 ^ 16 % 2 ^ 4 := by omega
  have e5 : (hw.cpuid 1 0).eax % 2 ^ 32 / 2 ^ 20 % 2 ^ 8
      = (hw.cpuid 1 0).eax / 2 ^ 20 % 2 ^ 8 := by omega
  have b0 : (hw.cpuid 1 0).ebx % 2 ^ 32 % 2 ^ 8 = (hw.cpuid 1 0).ebx % 2 ^ 8 := by omega
  have b1 : (hw.cpuid 1 0).ebx % 2 ^ 32 / 2 ^ 8 % 2 ^ 8 = (hw.cpuid 1 0).ebx / 2 ^ 8 % 2 ^ 8 := by
    omega
  have b2 : (hw.cpuid 1 0).ebx % 2 ^ 32 / 2 ^ 16 % 2 ^ 8
      = (hw.cpuid 1 0).ebx / 2 ^ 16 % 2 ^ 8 := by omega
  have b3 : (hw.cpuid 1 0).ebx % 2 ^ 32 / 2 ^ 24 % 2 ^ 8
      = (hw.cpuid 1 0).ebx / 2 ^ 24 % 2 ^ 8 := by omega
  simp only [intel_cpuid_version_and_feature_information, __cpuid_count,
    VERSION_AND_FEATURE_INFORMATION_LEAF, Store_field, read_intel_step, read_intel_model,
    read_intel_family, read_intel_type, read_intel_emodel, read_intel_efamily,
    read_ebx_brand_index, read_ebx_clflush_line_size, read_ebx_max_addressable,
    read_ebx_initial_apic_id]
  rw [show hw.cpuid (1 % 2 ^ 32) (0 % 2 ^ 32) = hw.cpuid 1 0 from rfl,
    show ((1 : Nat) % 2 ^ 32, (0 : Nat) % 2 ^ 32) = (1, 0) from rfl,
    e0, e1, e2, e3, e4, e5, b0, b1, b2, b3]

theorem amd_run (hw : Hw) (v_eax v_ebx v_record : List Value) :
    amd_cpuid_version_and_feature_information hw v_eax v_ebx v_record =
      { ret := Val_unit,
        v_eax := ((((v_eax.set 0 (Val_int ((hw.cpuid 1 0).eax % 2 ^ 4))).set 1
            (Val_int ((hw.cpuid 1 0).eax / 2 ^ 4 % 2 ^ 4))).set 2
            (Val_int ((hw.cpuid 1 0).eax / 2 ^ 8 % 2 ^ 4))).set 3
            (Val_int ((hw.cpuid 1 0).eax / 2 ^ 16 % 2 ^ 4))).set 4
            (Val_int ((hw.cpuid 1 0).eax / 2 ^ 20 % 2 ^ 8)),
        v_ebx := (((v_ebx.set 0 (Val_int ((hw.cpuid 1 0).ebx % 2 ^ 8))).set 1
            (Val_int ((hw.cpuid 1 0).ebx / 2 ^ 8 % 2 ^ 8))).set 2
            (Val_int ((hw.cpuid 1 0).ebx / 2 ^ 16 % 2 ^ 8))).set 3
            (Val_int ((hw.cpuid 1 0).ebx / 2 ^ 24 % 2 ^ 8)),
        v_record := (v_record.set 2 (Val_int ((hw.cpuid 1 0).ecx % 2 ^ 32))).set 3
            (Val_int ((hw.cpuid 1 0).edx % 2 ^ 32)),
        hw := { hw with log := hw.log ++ [(1, 0)] } } := by
  have e0 : (hw.cpuid 1 0).eax % 2 ^ 32 % 2 ^ 4 = (hw.cpuid 1 0).eax % 2 ^ 4 := by omega
  have e1 : (hw.cpuid 1 0).eax % 2 ^ 32 / 2 ^ 4 % 2 ^ 4 = (hw.cpuid 1 0).eax / 2 ^ 4 % 2 ^ 4 := by
    omega
  have e2 : (hw.cpuid 1 0).eax % 2 ^ 32 / 2 ^ 8 % 2 ^ 4 = (hw.cpuid 1 0).eax / 2 ^ 8 % 2 ^ 4 := by
    omega
  have e4 : (hw.cpuid 1 0).eax % 2 ^ 32 / 2 ^ 16 % 2 ^ 4
      = (hw.cpuid 1 0).eax / 2 ^ 16 % 2 ^ 4 := by omega
  have e5 : (hw.cpuid 1 0).eax % 2 ^ 32 / 2 ^ 20 % 2 ^ 8
      = (hw.cpuid 1 0).eax / 2 ^ 20 % 2 ^ 8 := by omega
  have b0 : (hw.cpuid 1 0).ebx % 2 ^ 32 % 2 ^ 8 = (hw.cpuid 1 0).ebx % 2 ^ 8 := by omega
  have b1 : (hw.cpuid 1 0).ebx % 2 ^ 32 / 2 ^ 8 % 2 ^ 8 = (hw.cpuid 1 0).ebx / 2 ^ 8 % 2 ^ 8 := by
    omega
  have b2 : (hw.cpuid 1 0).ebx % 2 ^ 32 / 2 ^ 16 % 2 ^ 8
      = (hw.cpuid 1 0).ebx / 2 ^ 16 % 2 ^ 8 := by omega
  have b3 : (hw.cpuid 1 0).ebx % 2 ^ 32 / 2 ^ 24 % 2 ^ 8
      = (hw.cpuid 1 0).ebx / 2 ^ 24 % 2 ^ 8 := by omega
  simp only [amd_cpuid_version_and_feature_information, __cpuid_count,
    VERSION_AND_FEATURE_INFORMATION_LEAF, Store_field, read_amd_step, read_amd_model,
    read_amd_family, read_amd_emodel, read_amd_efamily,
    read_ebx_brand_index, read_ebx_clflush_line_size, read_ebx_max_addressable,
    read_ebx_initial_apic_id]
  rw [show hw.cpuid (1 % 2 ^ 32) (0 % 2 ^ 32) = hw.cpuid 1 0 from rfl,
    show ((1 : Nat) % 2 ^ 32, (0 : Nat) % 2 ^ 32) = (1, 0) from rfl,
    e0, e1, e2, e4, e5, b0, b1, b2, b3]

theorem to_uint32_Int_val (w : Nat) : to_uint32 (Int_val w) = w % 2 ^ 64 / 2 % 2 ^ 32 := by
  unfold to_uint32 Int_val to_int Long_val intnat
  split <;> omega

theorem arbitrary_run (hw : Hw) (v_eax v_ecx : Nat) :
    cpuid_arbitrary_leaf_and_subleaf hw v_eax v_ecx =
      ([Val_int ((hw.cpuid (v_eax % 2 ^ 64 / 2 % 2 ^ 32) (v_ecx % 2 ^ 64 / 2 % 2 ^ 32)).eax
          % 2 ^ 32),
        Val_int ((hw.cpuid (v_eax % 2 ^ 64 / 2 % 2 ^ 32) (v_ecx % 2 ^ 64 / 2 % 2 ^ 32)).ebx
          % 2 ^ 32),
        Val_int ((hw.cpuid (v_eax % 2 ^ 64 / 2 % 2 ^ 32) (v_ecx % 2 ^ 64 / 2 % 2 ^ 32)).ecx
          % 2 ^ 32),
        Val_int ((hw.cpuid (v_eax % 2 ^ 64 / 2 % 2 ^ 32) (v_ecx % 2 ^ 64 / 2 % 2 ^ 32)).edx
          % 2 ^ 32)],
       { hw with log := hw.log ++ [(v_eax % 2 ^ 64 / 2 % 2 ^ 32, v_ecx % 2 ^ 64 / 2 % 2 ^ 32)] })
    := by
  simp only [cpuid_arbitrary_leaf_and_subleaf, __cpuid_count, to_uint32_Int_val, Nat.mod_mod,
    Store_field, caml_alloc_local]
  rfl

theorem extended_run (hw : Hw) (v_record : List Value) :
    cpuid_extended_feature_flags_subleaf0 hw v_record =
      { ret := Val_int ((hw.cpuid 7 0).eax % 2 ^ 32),
        v_record := ((v_record.set 1 (Val_int ((hw.cpuid 7 0).ebx % 2 ^ 32))).set 2
            (Val_int ((hw.cpuid 7 0).ecx % 2 ^ 32))).set 3
            (Val_int ((hw.cpuid 7 0).edx % 2 ^ 32)),
        hw := { hw with log := hw.log ++ [(7, 0)] } } := by
  rfl

/-! ## The brand string -/

/-- C1: when none of the 12 bytes of EBX, EDX, ECX returned by leaf 0x00 is
zero, the brand string stored in slot 1 is exactly the bytes of EBX, then of
EDX, then of ECX, each register least significant byte first; for
EBX=0x756e6547, EDX=0x49656e69, ECX=0x6c65746e it is "GenuineIntel". -/
theorem brand_string_of_nonzero_bytes (hw : Hw) (v_record : List Value)
    (hlen : 2 ≤ v_record.length)
    (hnz : ∀ b ∈ spec_brand_bytes (hw.cpuid 0 0).ebx (hw.cpuid 0 0).edx (hw.cpuid 0 0).ecx,
      b ≠ 0) :
    ∃ out, cpuid_maximum_value_and_brand hw v_record = some out ∧
      out.v_record[1]? = some (Value.str
        (spec_brand_bytes (hw.cpuid 0 0).ebx (hw.cpuid 0 0).edx (hw.cpuid 0 0).ecx)) ∧
      ((hw.cpuid 0 0).ebx = 0x756e6547 → (hw.cpuid 0 0).edx = 0x49656e69 →
        (hw.cpuid 0 0).ecx = 0x6c65746e →
        out.v_record[1]? = some (Value.str ("GenuineIntel".toList.map Char.toNat))) := by
  have hall : (spec_brand_bytes (hw.cpuid 0 0).ebx (hw.cpuid 0 0).edx
      (hw.cpuid 0 0).ecx).takeWhile (fun b => b != 0)
      = spec_brand_bytes (hw.cpuid 0 0).ebx (hw.cpuid 0 0).edx (hw.cpuid 0 0).ecx := by
    rw [List.takeWhile_eq_self_iff]
    intro b hb
    simpa using hnz b hb
  have hslot : ((v_record.set 0 (Val_int ((hw.cpuid 0 0).eax % 2 ^ 32))).set 1
      (Value.str (spec_brand_bytes (hw.cpuid 0 0).ebx (hw.cpuid 0 0).edx
        (hw.cpuid 0 0).ecx)))[1]?
      = some (Value.str (spec_brand_bytes (hw.cpuid 0 0).ebx (hw.cpuid 0 0).edx
        (hw.cpuid 0 0).ecx)) := by
    rw [List.getElem?_set_self]
    simpa using hlen
  refine ⟨_, brand_run hw v_record, ?_, ?_⟩
  · simp only [hall]
    exact hslot
  · intro hb hd hc
    simp only [hall]
    rw [hslot, hb, hd, hc]
    rfl

/-- Witness of C1: the processor answering with the "GenuineIntel" signature. -/
theorem brand_string_of_nonzero_bytes_witness :
    2 ≤ brand_record.length ∧
    (∀ b ∈ spec_brand_bytes (hw_genuine_intel.cpuid 0 0).ebx (hw_genuine_intel.cpuid 0 0).edx
      (hw_genuine_intel.cpuid 0 0).ecx, b ≠ 0) ∧
    ∃ out, cpuid_maximum_value_and_brand hw_genuine_intel brand_record = some out ∧
      out.v_record[1]? = some (Value.str
        (spec_brand_bytes (hw_genuine_intel.cpuid 0 0).ebx (hw_genuine_intel.cpuid 0 0).edx
          (hw_genuine_intel.cpuid 0 0).ecx)) ∧
      ((hw_genuine_intel.cpuid 0 0).ebx = 0x756e6547 →
        (hw_genuine_intel.cpuid 0 0).edx = 0x49656e69 →
        (hw_genuine_intel.cpuid 0 0).ecx = 0x6c65746e →
        out.v_record[1]? = some (Value.str ("GenuineIntel".toList.map Char.toNat))) :=
  ⟨by decide, by decide,
    brand_string_of_nonzero_bytes hw_genuine_intel brand_record (by decide) (by decide)⟩

/-- C8: when leaf 0x00 returns EBX = EDX = ECX = 0 the stub completes, the
brand string stored in slot 1 is the empty string, and slot 0 still holds
EAX as max_supported_leaf. -/
theorem brand_string_of_zero_registers (hw : Hw) (v_record : List Value)
    (hlen : 2 ≤ v_record.length) (ha : (hw.cpuid 0 0).eax < 2 ^ 32)
    (hb : (hw.cpuid 0 0).ebx = 0) (hd : (hw.cpuid 0 0).edx = 0)
    (hc : (hw.cpuid 0 0).ecx = 0) :
    ∃ out, cpuid_maximum_value_and_brand hw v_record = some out ∧
      out.v_record[1]? = some (Value.str []) ∧
      slot_int out.v_record 0 = some ((hw.cpuid 0 0).eax : Int) := by
  refine ⟨_, brand_run hw v_record, ?_, ?_⟩
  · simp only [hb, hd, hc]
    exact set_set_slot1 _ _ _ hlen
  · simp only [Nat.mod_eq_of_lt ha]
    exact set_set_slot0 _ _ _ hlen ha

/-- Witness of C8: a processor whose EBX, EDX, ECX are zero at every leaf. -/
theorem brand_string_of_zero_registers_witness :
    2 ≤ brand_record.length ∧ (hw_zero_brand.cpuid 0 0).eax < 2 ^ 32 ∧
    (hw_zero_brand.cpuid 0 0).ebx = 0 ∧ (hw_zero_brand.cpuid 0 0).edx = 0 ∧
    (hw_zero_brand.cpuid 0 0).ecx = 0 ∧
    ∃ out, cpuid_maximum_value_and_brand hw_zero_brand brand_record = some out ∧
      out.v_record[1]? = some (Value.str []) ∧
      slot_int out.v_record 0 = some ((hw_zero_brand.cpuid 0 0).eax : Int) :=
  ⟨by decide, by decide, rfl, rfl, rfl,
    brand_string_of_zero_registers hw_zero_brand brand_record (by decide) (by decide)
      rfl rfl rfl⟩

/-- Counterexample to C9 as stated: with EBX = 0x00420041 (bytes 0x41, 0x00,
0x42, 0x00) and EDX = ECX = 0 the stub stores the one-byte string 0x41, while
the concatenation with its trailing zero bytes trimmed is 0x41, 0x00, 0x42. -/
theorem brand_string_not_trailing_trim :
    (cpuid_maximum_value_and_brand hw_inner_zero brand_record).map
        (fun out => out.v_record[1]?) = some (some (Value.str [0x41])) ∧
    spec_trim_trailing_zeros (spec_brand_bytes (hw_inner_zero.cpuid 0 0).ebx
        (hw_inner_zero.cpuid 0 0).edx (hw_inner_zero.cpuid 0 0).ecx) = [0x41, 0x00, 0x42] ∧
    (cpuid_maximum_value_and_brand hw_inner_zero brand_record).map
        (fun out => out.v_record[1]?) ≠
      some (some (Value.str (spec_trim_trailing_zeros
        (spec_brand_bytes (hw_inner_zero.cpuid 0 0).ebx (hw_inner_zero.cpuid 0 0).edx
          (hw_inner_zero.cpuid 0 0).ecx)))) := by
  refine ⟨by decide, by decide, by decide⟩

/-- C9 (amended): the brand string stored in slot 1 is the 12-byte
concatenation EBX, EDX, ECX (little-endian bytes) cut before its first zero
byte; it equals the concatenation with its trailing zero bytes trimmed if and
only if the trimmed concatenation holds no zero byte, that is, no zero byte
precedes a non-zero byte. -/
theorem brand_string_cut_at_first_zero (hw : Hw) (v_record : List Value)
    (hlen : 2 ≤ v_record.length) :
    ∃ out, cpuid_maximum_value_and_brand hw v_record = some out ∧
      out.v_record[1]? = some (Value.str
        ((spec_brand_bytes (hw.cpuid 0 0).ebx (hw.cpuid 0 0).edx
          (hw.cpuid 0 0).ecx).takeWhile (fun b => b != 0))) ∧
      (out.v_record[1]? = some (Value.str (spec_trim_trailing_zeros
          (spec_brand_bytes (hw.cpuid 0 0).ebx (hw.cpuid 0 0).edx (hw.cpuid 0 0).ecx))) ↔
        0 ∉ spec_trim_trailing_zeros
          (spec_brand_bytes (hw.cpuid 0 0).ebx (hw.cpuid 0 0).edx (hw.cpuid 0 0).ecx)) := by
  refine ⟨_, brand_run hw v_record, set_set_slot1 _ _ _ hlen, ?_⟩
  rw [set_set_slot1 _ _ _ hlen, ← takeWhile_eq_trim_iff]
  simp

/-- Witness of C9 (amended): the processor with a zero byte inside EBX. -/
theorem brand_string_cut_at_first_zero_witness :
    2 ≤ brand_record.length ∧
    ∃ out, cpuid_maximum_value_and_brand hw_inner_zero brand_record = some out ∧
      out.v_record[1]? = some (Value.str
        ((spec_brand_bytes (hw_inner_zero.cpuid 0 0).ebx (hw_inner_zero.cpuid 0 0).edx
          (hw_inner_zero.cpuid 0 0).ecx).takeWhile (fun b => b != 0))) ∧
      (out.v_record[1]? = some (Value.str (spec_trim_trailing_zeros
          (spec_brand_bytes (hw_inner_zero.cpuid 0 0).ebx (hw_inner_zero.cpuid 0 0).edx
            (hw_inner_zero.cpuid 0 0).ecx))) ↔
        0 ∉ spec_trim_trailing_zeros
          (spec_brand_bytes (hw_inner_zero.cpuid 0 0).ebx (hw_inner_zero.cpuid 0 0).edx
            (hw_inner_zero.cpuid 0 0).ecx)) :=
  ⟨by decide, brand_string_cut_at_first_zero hw_inner_zero brand_record (by decide)⟩

/-! ## Version and feature information -/

/-- C2: the Intel version function stores in slots 0..5 of the version record
stepping = EAX bits 3:0, model = bits 7:4, family = bits 11:8, type = bits
13:12, extended model = bits 19:16, extended family = bits 27:20, as raw
extracted values; for EAX=0x000906EA these are 0xA, 0xE, 0x6, 0x0, 0x9, 0x0. -/
theorem intel_version_fields (hw : Hw) (v_eax v_ebx v_record : List Value)
    (hlen : 6 ≤ v_eax.length) :
    ((intel_cpuid_version_and_feature_information hw v_eax v_ebx v_record).v_eax.take 6).map
        Value.toInt? =
      [(hw.cpuid 1 0).eax % 2 ^ 4, (hw.cpuid 1 0).eax / 2 ^ 4 % 2 ^ 4,
        (hw.cpuid 1 0).eax / 2 ^ 8 % 2 ^ 4, (hw.cpuid 1 0).eax / 2 ^ 12 % 2 ^ 2,
        (hw.cpuid 1 0).eax / 2 ^ 16 % 2 ^ 4, (hw.cpuid 1 0).eax / 2 ^ 20 % 2 ^ 8].map
        (fun n : Nat => some (n : Int)) ∧
    ((hw.cpuid 1 0).eax = 0x000906EA →
      ((intel_cpuid_version_and_feature_information hw v_eax v_ebx v_record).v_eax.take 6).map
        Value.toInt? = [some 0xA, some 0xE, some 0x6, some 0x0, some 0x9, some 0x0]) := by
  have key : ((intel_cpuid_version_and_feature_information hw v_eax v_ebx
      v_record).v_eax.take 6).map Value.toInt? =
      [(hw.cpuid 1 0).eax % 2 ^ 4, (hw.cpuid 1 0).eax / 2 ^ 4 % 2 ^ 4,
        (hw.cpuid 1 0).eax / 2 ^ 8 % 2 ^ 4, (hw.cpuid 1 0).eax / 2 ^ 12 % 2 ^ 2,
        (hw.cpuid 1 0).eax / 2 ^ 16 % 2 ^ 4, (hw.cpuid 1 0).eax / 2 ^ 20 % 2 ^ 8].map
        (fun n : Nat => some (n : Int)) := by
    rw [intel_run]
    simp only [set_0_to_5 _ hlen]
    simp only [List.take_succ_cons, List.take_zero, List.map_cons, List.map_nil]
    rw [toInt?_Val_int _ (by omega), toInt?_Val_int _ (by omega), toInt?_Val_int _ (by omega),
      toInt?_Val_int _ (by omega), toInt?_Val_int _ (by omega), toInt?_Val_int _ (by omega)]
  refine ⟨key, ?_⟩
  intro h
  rw [key, h]
  rfl

/-- Witness of C2: EAX = 0x000906EA and a version record of six fields. -/
theorem intel_version_fields_witness :
    6 ≤ (record_of_size 6).length ∧
    ((intel_cpuid_version_and_feature_information hw_906ea (record_of_size 6)
        (record_of_size 4) (record_of_size 4)).v_eax.take 6).map Value.toInt? =
      [some 0xA, some 0xE, some 0x6, some 0x0, some 0x9, some 0x0] :=
  ⟨by decide,
    (intel_version_fields hw_906ea (record_of_size 6) (record_of_size 4) (record_of_size 4)
      (by decide)).2 rfl⟩

/-- C3: the AMD version function writes exactly five version fields, slots
0..4: stepping = EAX bits 3:0, model = bits 7:4, family = bits 11:8, extended
model = bits 19:16, extended family = bits 27:20.  No type field is stored:
the record keeps its size and every slot from 5 on keeps its contents,
whereas the Intel function stores the extended family in a sixth slot. -/
theorem amd_version_fields (hw : Hw) (v_eax v_ebx v_record : List Value)
    (hlen : 5 ≤ v_eax.length) :
    ((amd_cpuid_version_and_feature_information hw v_eax v_ebx v_record).v_eax.take 5).map
        Value.toInt? =
      [(hw.cpuid 1 0).eax % 2 ^ 4, (hw.cpuid 1 0).eax / 2 ^ 4 % 2 ^ 4,
        (hw.cpuid 1 0).eax / 2 ^ 8 % 2 ^ 4, (hw.cpuid 1 0).eax / 2 ^ 16 % 2 ^ 4,
        (hw.cpuid 1 0).eax / 2 ^ 20 % 2 ^ 8].map (fun n : Nat => some (n : Int)) ∧
    (amd_cpuid_version_and_feature_information hw v_eax v_ebx v_record).v_eax.length
      = v_eax.length ∧
    (amd_cpuid_version_and_feature_information hw v_eax v_ebx v_record).v_eax.drop 5
      = v_eax.drop 5 ∧
    (6 ≤ v_eax.length →
      (amd_cpuid_version_and_feature_information hw v_eax v_ebx v_record).v_eax[5]?
        = v_eax[5]? ∧
      (intel_cpuid_version_and_feature_information hw v_eax v_ebx v_record).v_eax[5]?
        = some (Val_int ((hw.cpuid 1 0).eax / 2 ^ 20 % 2 ^ 8))) := by
  refine ⟨?_, ?_, ?_, ?_⟩
  · rw [amd_run]
    simp only [set_0_to_4 _ hlen]
    simp only [List.take_succ_cons, List.take_zero, List.map_cons, List.map_nil]
    rw [toInt?_Val_int _ (by omega), toInt?_Val_int _ (by omega), toInt?_Val_int _ (by omega),
      toInt?_Val_int _ (by omega), toInt?_Val_int _ (by omega)]
  · rw [amd_run]
    simp
  · rw [amd_run]
    simp only [set_0_to_4 _ hlen]
    simp
  · intro h6
    constructor
    · rw [amd_run]
      simp
    · rw [intel_run]
      simp only [set_0_to_5 _ h6]
      simp

/-- Witness of C3: EAX = 0x000906EA and a version record of six fields, of
which the AMD function leaves the sixth untouched. -/
theorem amd_version_fields_witness :
    5 ≤ (record_of_size 6).length ∧
    ((amd_cpuid_version_and_feature_information hw_906ea (record_of_size 6)
        (record_of_size 4) (record_of_size 4)).v_eax.take 5).map Value.toInt? =
      [some 0xA, some 0xE, some 0x6, some 0x9, some 0x0] ∧
    (amd_cpuid_version_and_feature_information hw_906ea (record_of_size 6)
        (record_of_size 4) (record_of_size 4)).v_eax.drop 5 = (record_of_size 6).drop 5 :=
  ⟨by decide,
    (amd_version_fields hw_906ea (record_of_size 6) (record_of_size 4) (record_of_size 4)
      (by decide)).1,
    (amd_version_fields hw_906ea (record_of_size 6) (record_of_size 4) (record_of_size 4)
      (by decide)).2.2.1⟩

/-- C4: both version functions store in slots 0..3 of the misc record
brand_index = EBX bits 7:0, clflush_line_size = bits 15:8,
max_addressable_logical_processors = bits 23:16, initial_apic_id = bits 31:24,
and the two variants leave the same misc record. -/
theorem misc_fields (hw : Hw) (v_eax v_ebx v_record : List Value)
    (hlen : 4 ≤ v_ebx.length) :
    ((intel_cpuid_version_and_feature_information hw v_eax v_ebx v_record).v_ebx.take 4).map
        Value.toInt? =
      [(hw.cpuid 1 0).ebx % 2 ^ 8, (hw.cpuid 1 0).ebx / 2 ^ 8 % 2 ^ 8,
        (hw.cpuid 1 0).ebx / 2 ^ 16 % 2 ^ 8, (hw.cpuid 1 0).ebx / 2 ^ 24 % 2 ^ 8].map
        (fun n : Nat => some (n : Int)) ∧
    ((amd_cpuid_version_and_feature_information hw v_eax v_ebx v_record).v_ebx.take 4).map
        Value.toInt? =
      [(hw.cpuid 1 0).ebx % 2 ^ 8, (hw.cpuid 1 0).ebx / 2 ^ 8 % 2 ^ 8,
        (hw.cpuid 1 0).ebx / 2 ^ 16 % 2 ^ 8, (hw.cpuid 1 0).ebx / 2 ^ 24 % 2 ^ 8].map
        (fun n : Nat => some (n : Int)) ∧
    (intel_cpuid_version_and_feature_information hw v_eax v_ebx v_record).v_ebx
      = (amd_cpuid_version_and_feature_information hw v_eax v_ebx v_record).v_ebx := by
  refine ⟨?_, ?_, ?_⟩
  · rw [intel_run]
    simp only [set_0_to_3 _ hlen]
    simp only [List.take_succ_cons, List.take_zero, List.map_cons, List.map_nil]
    rw [toInt?_Val_int _ (by omega), toInt?_Val_int _ (by omega), toInt?_Val_int _ (by omega),
      toInt?_Val_int _ (by omega)]
  · rw [amd_run]
    simp only [set_0_to_3 _ hlen]
    simp only [List.take_succ_cons, List.take_zero, List.map_cons, List.map_nil]
    rw [toInt?_Val_int _ (by omega), toInt?_Val_int _ (by omega), toInt?_Val_int _ (by omega),
      toInt?_Val_int _ (by omega)]
  · rw [intel_run, amd_run]

/-- Witness of C4: EBX = 0x12345678 and a misc record of four fields. -/
theorem misc_fields_witness :
    4 ≤ (record_of_size 4).length ∧
    ((intel_cpuid_version_and_feature_information hw_906ea (record_of_size 6)
        (record_of_size 4) (record_of_size 4)).v_ebx.take 4).map Value.toInt? =
      [some 0x78, some 0x56, some 0x34, some 0x12] :=
  ⟨by decide,
    (misc_fields hw_906ea (record_of_size 6) (record_of_size 4) (record_of_size 4)
      (by decide)).1⟩

/-- C7: both version functions store ECX in slot 2 and EDX in slot 3 of the
outer record, each as the full 32-bit register value. -/
theorem feature_words (hw : Hw) (v_eax v_ebx v_record : List Value)
    (hlen : 4 ≤ v_record.length) (hc : (hw.cpuid 1 0).ecx < 2 ^ 32)
    (hd : (hw.cpuid 1 0).edx < 2 ^ 32) :
    slot_int (intel_cpuid_version_and_feature_information hw v_eax v_ebx v_record).v_record 2
      = some ((hw.cpuid 1 0).ecx : Int) ∧
    slot_int (intel_cpuid_version_and_feature_information hw v_eax v_ebx v_record).v_record 3
      = some ((hw.cpuid 1 0).edx : Int) ∧
    slot_int (amd_cpuid_version_and_feature_information hw v_eax v_ebx v_record).v_record 2
      = some ((hw.cpuid 1 0).ecx : Int) ∧
    slot_int (amd_cpuid_version_and_feature_information hw v_eax v_ebx v_record).v_record 3
      = some ((hw.cpuid 1 0).edx : Int) := by
  have h2 : slot_int ((v_record.set 2 (Val_int ((hw.cpuid 1 0).ecx % 2 ^ 32))).set 3
      (Val_int ((hw.cpuid 1 0).edx % 2 ^ 32))) 2 = some ((hw.cpuid 1 0).ecx : Int) := by
    rw [slot_int_set_ne _ 3 2 _ (by decide), Nat.mod_eq_of_lt hc]
    exact slot_int_set_eq _ 2 _ (by omega) hc
  have h3 : slot_int ((v_record.set 2 (Val_int ((hw.cpuid 1 0).ecx % 2 ^ 32))).set 3
      (Val_int ((hw.cpuid 1 0).edx % 2 ^ 32))) 3 = some ((hw.cpuid 1 0).edx : Int) := by
    rw [Nat.mod_eq_of_lt hd]
    exact slot_int_set_eq _ 3 _ (by simp; omega) hd
  rw [intel_run, amd_run]
  exact ⟨h2, h3, h2, h3⟩

/-- Witness of C7: ECX = 0xFFFFFFFF and EDX = 0x80000001, both with bit 31 set. -/
theorem feature_words_witness :
    4 ≤ (record_of_size 4).length ∧ (hw_906ea.cpuid 1 0).ecx < 2 ^ 32 ∧
    (hw_906ea.cpuid 1 0).edx < 2 ^ 32 ∧
    slot_int (intel_cpuid_version_and_feature_information hw_906ea (record_of_size 6)
        (record_of_size 4) (record_of_size 4)).v_record 2 = some 0xFFFFFFFF ∧
    slot_int (intel_cpuid_version_and_feature_information hw_906ea (record_of_size 6)
        (record_of_size 4) (record_of_size 4)).v_record 3 = some 0x80000001 :=
  ⟨by decide, by decide, by decide,
    (feature_words hw_906ea (record_of_size 6) (record_of_size 4) (record_of_size 4)
      (by decide) (by decide) (by decide)).1,
    (feature_words hw_906ea (record_of_size 6) (record_of_size 4) (record_of_size 4)
      (by decide) (by decide) (by decide)).2.1⟩

/-! ## The raw query and the extended feature flags -/

/-- C5: for every leaf and sub-leaf in [0, 2^32), passed as the OCaml integers
they are (the words 2 * leaf + 1 and 2 * subleaf + 1),
cpuid_arbitrary_leaf_and_subleaf executes CPUID once, with exactly that leaf
in EAX and that sub-leaf in ECX, and returns a block of four fields holding
the resulting EAX, EBX, ECX, EDX in that order, each the register's value. -/
theorem arbitrary_leaf_passthrough (hw : Hw) (leaf subleaf : Nat) (hl : leaf < 2 ^ 32)
    (hs : subleaf < 2 ^ 32) (h32 : (hw.cpuid leaf subleaf).is32) :
    (cpuid_arbitrary_leaf_and_subleaf hw (2 * leaf + 1) (2 * subleaf + 1)).2.log
      = hw.log ++ [(leaf, subleaf)] ∧
    (cpuid_arbitrary_leaf_and_subleaf hw (2 * leaf + 1) (2 * subleaf + 1)).1.map Value.toInt?
      = [some ((hw.cpuid leaf subleaf).eax : Int), some ((hw.cpuid leaf subleaf).ebx : Int),
         some ((hw.cpuid leaf subleaf).ecx : Int), some ((hw.cpuid leaf subleaf).edx : Int)] := by
  have e1 : (2 * leaf + 1) % 2 ^ 64 / 2 % 2 ^ 32 = leaf := by omega
  have e2 : (2 * subleaf + 1) % 2 ^ 64 / 2 % 2 ^ 32 = subleaf := by omega
  obtain ⟨ha, hb, hc, hd⟩ := h32
  rw [arbitrary_run, e1, e2]
  refine ⟨rfl, ?_⟩
  simp only [List.map_cons, List.map_nil, Nat.mod_eq_of_lt ha, Nat.mod_eq_of_lt hb,
    Nat.mod_eq_of_lt hc, Nat.mod_eq_of_lt hd, toInt?_Val_int _ ha, toInt?_Val_int _ hb,
    toInt?_Val_int _ hc, toInt?_Val_int _ hd]

/-- Witness of C5: leaf 0x80000002 (bit 31 set) and sub-leaf 7 on the processor
that echoes the query. -/
theorem arbitrary_leaf_passthrough_witness :
    0x80000002 < 2 ^ 32 ∧ 7 < 2 ^ 32 ∧ (hw_echo.cpuid 0x80000002 7).is32 ∧
    (cpuid_arbitrary_leaf_and_subleaf hw_echo (2 * 0x80000002 + 1) (2 * 7 + 1)).2.log
      = [(0x80000002, 7)] ∧
    (cpuid_arbitrary_leaf_and_subleaf hw_echo (2 * 0x80000002 + 1) (2 * 7 + 1)).1.map
      Value.toInt? = [some 0x80000002, some 7, some 0xFFFFFFFF, some 0x80000001] :=
  ⟨by decide, by decide, by decide,
    arbitrary_leaf_passthrough hw_echo 0x80000002 7 (by decide) (by decide) (by decide)⟩

/-- C6: cpuid_extended_feature_flags_subleaf0 returns EAX of leaf 0x07 sub-leaf 0
itself as the maximum supported sub-leaf and stores EBX, ECX, EDX unchanged in
slots 1, 2, 3 of the record. -/
theorem extended_feature_flags (hw : Hw) (v_record : List Value)
    (hlen : 4 ≤ v_record.length) (h32 : (hw.cpuid 7 0).is32) :
    (cpuid_extended_feature_flags_subleaf0 hw v_record).ret.toInt?
      = some ((hw.cpuid 7 0).eax : Int) ∧
    slot_int (cpuid_extended_feature_flags_subleaf0 hw v_record).v_record 1
      = some ((hw.cpuid 7 0).ebx : Int) ∧
    slot_int (cpuid_extended_feature_flags_subleaf0 hw v_record).v_record 2
      = some ((hw.cpuid 7 0).ecx : Int) ∧
    slot_int (cpuid_extended_feature_flags_subleaf0 hw v_record).v_record 3
      = some ((hw.cpuid 7 0).edx : Int) := by
  obtain ⟨ha, hb, hc, hd⟩ := h32
  rw [extended_run]
  simp only [Nat.mod_eq_of_lt ha, Nat.mod_eq_of_lt hb, Nat.mod_eq_of_lt hc, Nat.mod_eq_of_lt hd]
  refine ⟨toInt?_Val_int _ ha, ?_, ?_, ?_⟩
  · rw [slot_int_set_ne _ 3 1 _ (by decide), slot_int_set_ne _ 2 1 _ (by decide)]
    exact slot_int_set_eq _ 1 _ (by omega) hb
  · rw [slot_int_set_ne _ 3 2 _ (by decide)]
    exact slot_int_set_eq _ 2 _ (by simp; omega) hc
  · exact slot_int_set_eq _ 3 _ (by simp; omega) hd

/-- Witness of C6: the processor answering leaf 7 with EAX = 7, EBX = 0,
ECX = 0xFFFFFFFF, EDX = 0x80000001. -/
theorem extended_feature_flags_witness :
    4 ≤ (record_of_size 4).length ∧ (hw_echo.cpuid 7 0).is32 ∧
    (cpuid_extended_feature_flags_subleaf0 hw_echo (record_of_size 4)).ret.toInt? = some 7 ∧
    slot_int (cpuid_extended_feature_flags_subleaf0 hw_echo (record_of_size 4)).v_record 1
      = some 0 ∧
    slot_int (cpuid_extended_feature_flags_subleaf0 hw_echo (record_of_size 4)).v_record 2
      = some 0xFFFFFFFF ∧
    slot_int (cpuid_extended_feature_flags_subleaf0 hw_echo (record_of_size 4)).v_record 3
      = some 0x80000001 :=
  ⟨by decide, by decide,
    extended_feature_flags hw_echo (record_of_size 4) (by decide) (by decide)⟩

/-! ## The two vendor variants side by side -/

/-- C10: on the same processor the Intel and the AMD version function agree on
every field they share.  There are six values step, model, family, type,
emodel, efamily such that the Intel function leaves them in slots 0..5 of its
version record and the AMD function leaves the same step, model, family,
emodel, efamily in slots 0..4 of its own; the misc record, the outer record
(with the ECX and EDX feature words), the return value and the CPUID queries
are the same.  The outputs differ in the type field alone. -/
theorem intel_amd_agree (hw : Hw) (v_eax_intel v_eax_amd v_ebx v_record : List Value)
    (hi : 6 ≤ v_eax_intel.length) (ha : 5 ≤ v_eax_amd.length) :
    (∃ step model family type emodel efamily : Value,
      (intel_cpuid_version_and_feature_information hw v_eax_intel v_ebx v_record).v_eax.take 6
        = [step, model, family, type, emodel, efamily] ∧
      (amd_cpuid_version_and_feature_information hw v_eax_amd v_ebx v_record).v_eax.take 5
        = [step, model, family, emodel, efamily] ∧
      type = Val_int ((hw.cpuid 1 0).eax / 2 ^ 12 % 2 ^ 2)) ∧
    (intel_cpuid_version_and_feature_information hw v_eax_intel v_ebx v_record).v_ebx
      = (amd_cpuid_version_and_feature_information hw v_eax_amd v_ebx v_record).v_ebx ∧
    (intel_cpuid_version_and_feature_information hw v_eax_intel v_ebx v_record).v_record
      = (amd_cpuid_version_and_feature_information hw v_eax_amd v_ebx v_record).v_record ∧
    (intel_cpuid_version_and_feature_information hw v_eax_intel v_ebx v_record).ret
      = (amd_cpuid_version_and_feature_information hw v_eax_amd v_ebx v_record).ret ∧
    (intel_cpuid_version_and_feature_information hw v_eax_intel v_ebx v_record).hw.log
      = (amd_cpuid_version_and_feature_information hw v_eax_amd v_ebx v_record).hw.log := by
  rw [intel_run, amd_run]
  refine ⟨⟨Val_int ((hw.cpuid 1 0).eax % 2 ^ 4), Val_int ((hw.cpuid 1 0).eax / 2 ^ 4 % 2 ^ 4),
    Val_int ((hw.cpuid 1 0).eax / 2 ^ 8 % 2 ^ 4), Val_int ((hw.cpuid 1 0).eax / 2 ^ 12 % 2 ^ 2),
    Val_int ((hw.cpuid 1 0).eax / 2 ^ 16 % 2 ^ 4), Val_int ((hw.cpuid 1 0).eax / 2 ^ 20 % 2 ^ 8),
    ?_, ?_, rfl⟩, rfl, rfl, rfl, rfl⟩
  · simp only [set_0_to_5 _ hi]
    rfl
  · simp only [set_0_to_4 _ ha]
    rfl

/-- Witness of C10: EAX = 0x000906EA, a six-field Intel version record and a
five-field AMD version record. -/
theorem intel_amd_agree_witness :
    6 ≤ (record_of_size 6).length ∧ 5 ≤ (record_of_size 5).length ∧
    (∃ step model family type emodel efamily : Value,
      (intel_cpuid_version_and_feature_information hw_906ea (record_of_size 6)
        (record_of_size 4) (record_of_size 4)).v_eax.take 6
        = [step, model, family, type, emodel, efamily] ∧
      (amd_cpuid_version_and_feature_information hw_906ea (record_of_size 5)
        (record_of_size 4) (record_of_size 4)).v_eax.take 5
        = [step, model, family, emodel, efamily] ∧
      type = Val_int ((hw_906ea.cpuid 1 0).eax / 2 ^ 12 % 2 ^ 2)) :=
  ⟨by decide, by decide,
    (intel_amd_agree hw_906ea (record_of_size 6) (record_of_size 5) (record_of_size 4)
      (record_of_size 4) (by decide) (by decide)).1⟩

theorem toInt?_Val_int_mod (x : Nat) :
    ∃ n : Int, (Val_int (x % 2 ^ 32)).toInt? = some n ∧ 0 ≤ n ∧ n < 2 ^ 32 := by
  have hx : x % 2 ^ 32 < 2 ^ 32 := Nat.mod_lt _ (by norm_num)
  refine ⟨((x % 2 ^ 32 : Nat) : Int), toInt?_Val_int _ hx, ?_, ?_⟩ <;> omega

theorem arbitrary_total (hw : Hw) (v_eax v_ecx : Nat) :
    (cpuid_arbitrary_leaf_and_subleaf hw v_eax v_ecx).1.length = 4 ∧
    ∀ v ∈ (cpuid_arbitrary_leaf_and_subleaf hw v_eax v_ecx).1,
      ∃ n : Int, v.toInt? = some n ∧ 0 ≤ n ∧ n < 2 ^ 32 := by
  rw [arbitrary_run]
  refine ⟨rfl, ?_⟩
  intro v hv
  simp only [List.mem_cons, List.mem_singleton, List.not_mem_nil, or_false] at hv
  rcases hv with h | h | h | h <;> rw [h] <;> exact toInt?_Val_int_mod _

/-! ## Queries, totality and determinism -/

/-- C11: each named entry point executes CPUID exactly once, at a fixed
(leaf, sub-leaf): cpuid_maximum_value_and_brand at (0x00, 0), storing EAX of
that query in slot 0; both version functions at (0x01, 0);
cpuid_extended_feature_flags_subleaf0 at (0x07, 0).  None of the queries they
add is at leaf 0x0A. -/
theorem entry_points_query_once (hw : Hw) (v_eax v_ebx v_record : List Value)
    (hlen : 1 ≤ v_record.length) (ha : (hw.cpuid 0 0).eax < 2 ^ 32) :
    (∃ out, cpuid_maximum_value_and_brand hw v_record = some out ∧
      out.hw.log = hw.log ++ [(0x00, 0)] ∧
      slot_int out.v_record 0 = some ((hw.cpuid 0 0).eax : Int) ∧
      ∀ q ∈ out.hw.log.drop hw.log.length, q.1 ≠ ARCHITECTURAL_PERFORMANCE_MONITORING_LEAF) ∧
    ((intel_cpuid_version_and_feature_information hw v_eax v_ebx v_record).hw.log
        = hw.log ++ [(0x01, 0)] ∧
      ∀ q ∈ (intel_cpuid_version_and_feature_information hw v_eax v_ebx
          v_record).hw.log.drop hw.log.length,
        q.1 ≠ ARCHITECTURAL_PERFORMANCE_MONITORING_LEAF) ∧
    ((amd_cpuid_version_and_feature_information hw v_eax v_ebx v_record).hw.log
        = hw.log ++ [(0x01, 0)] ∧
      ∀ q ∈ (amd_cpuid_version_and_feature_information hw v_eax v_ebx
          v_record).hw.log.drop hw.log.length,
        q.1 ≠ ARCHITECTURAL_PERFORMANCE_MONITORING_LEAF) ∧
    ((cpuid_extended_feature_flags_subleaf0 hw v_record).hw.log = hw.log ++ [(0x07, 0)] ∧
      ∀ q ∈ (cpuid_extended_feature_flags_subleaf0 hw v_record).hw.log.drop hw.log.length,
        q.1 ≠ ARCHITECTURAL_PERFORMANCE_MONITORING_LEAF) ∧
    ARCHITECTURAL_PERFORMANCE_MONITORING_LEAF = 0x0A := by
  refine ⟨⟨_, brand_run hw v_record, rfl, ?_, ?_⟩, ⟨?_, ?_⟩, ⟨?_, ?_⟩, ⟨?_, ?_⟩, rfl⟩
  · simp only [Nat.mod_eq_of_lt ha]
    rw [slot_int_set_ne _ 1 0 _ (by decide)]
    exact slot_int_set_eq _ 0 _ (by omega) ha
  · intro q hq
    simp only [List.drop_left, List.mem_singleton] at hq
    rw [hq]
    decide
  · rw [intel_run]
  · intro q hq
    rw [intel_run] at hq
    simp only [List.drop_left, List.mem_singleton] at hq
    rw [hq]
    decide
  · rw [amd_run]
  · intro q hq
    rw [amd_run] at hq
    simp only [List.drop_left, List.mem_singleton] at hq
    rw [hq]
    decide
  · rw [extended_run]
  · intro q hq
    rw [extended_run] at hq
    simp only [List.drop_left, List.mem_singleton] at hq
    rw [hq]
    decide

/-- Witness of C11: the processor that echoes the query, starting from an empty
query log. -/
theorem entry_points_query_once_witness :
    1 ≤ brand_record.length ∧ (hw_echo.cpuid 0 0).eax < 2 ^ 32 ∧
    (∃ out, cpuid_maximum_value_and_brand hw_echo brand_record = some out ∧
      out.hw.log = [(0x00, 0)] ∧ slot_int out.v_record 0 = some 0) ∧
    (intel_cpuid_version_and_feature_information hw_echo (record_of_size 6)
      (record_of_size 4) brand_record).hw.log = [(0x01, 0)] :=
  ⟨by decide, by decide,
    (entry_points_query_once hw_echo (record_of_size 6) (record_of_size 4) brand_record
      (by decide) (by decide)).1.elim
      (fun out h => ⟨out, h.1, h.2.1, h.2.2.1⟩),
    (entry_points_query_once hw_echo (record_of_size 6) (record_of_size 4) brand_record
      (by decide) (by decide)).2.1.1⟩

/-- C12: every stub is total.  For every pair of machine words, and so for the
word of every OCaml integer n, m (negative or outside [0, 2^32) included),
cpuid_arbitrary_leaf_and_subleaf returns a block of exactly four fields, each
an integer in [0, 2^32).  On every processor and for all records the brand
stub returns (its strlen never leaves the buffer), the two version stubs
return unit, and the extended-feature stub returns an integer in [0, 2^32). -/
theorem stubs_total (hw : Hw) (w_eax w_ecx : Nat) (n m : Int)
    (v_eax v_ebx v_record : List Value) :
    ((cpuid_arbitrary_leaf_and_subleaf hw w_eax w_ecx).1.length = 4 ∧
      ∀ v ∈ (cpuid_arbitrary_leaf_and_subleaf hw w_eax w_ecx).1,
        ∃ k : Int, v.toInt? = some k ∧ 0 ≤ k ∧ k < 2 ^ 32) ∧
    ((cpuid_arbitrary_leaf_and_subleaf hw (Val_long n) (Val_long m)).1.length = 4 ∧
      ∀ v ∈ (cpuid_arbitrary_leaf_and_subleaf hw (Val_long n) (Val_long m)).1,
        ∃ k : Int, v.toInt? = some k ∧ 0 ≤ k ∧ k < 2 ^ 32) ∧
    (∃ out, cpuid_maximum_value_and_brand hw v_record = some out ∧ out.ret = Val_unit) ∧
    (intel_cpuid_version_and_feature_information hw v_eax v_ebx v_record).ret = Val_unit ∧
    (amd_cpuid_version_and_feature_information hw v_eax v_ebx v_record).ret = Val_unit ∧
    (∃ k : Int, (cpuid_extended_feature_flags_subleaf0 hw v_record).ret.toInt? = some k ∧
      0 ≤ k ∧ k < 2 ^ 32) := by
  refine ⟨arbitrary_total hw w_eax w_ecx, arbitrary_total hw _ _,
    ⟨_, brand_run hw v_record, rfl⟩, ?_, ?_, ?_⟩
  · rw [intel_run]
  · rw [amd_run]
  · rw [extended_run]
    exact toInt?_Val_int_mod _

theorem write_bytes_over (bs : List Nat) :
    ∀ (pre mem : List Nat), mem.length = bs.length →
      write_bytes (pre ++ mem) pre.length bs = pre ++ bs := by
  induction bs with
  | nil =>
    intro pre mem h
    have : mem = [] := List.length_eq_zero.mp h
    simp [write_bytes, this]
  | cons b bs ih =>
    intro pre mem h
    rcases mem with _ | ⟨m, ms⟩
    · simp at h
    · have hset : (pre ++ m :: ms).set pre.length b = (pre ++ [b]) ++ ms := by
        simp
      have hl : pre.length + 1 = (pre ++ [b]).length := by simp
      rw [write_bytes, hset, hl, ih (pre ++ [b]) ms (by simpa using h)]
      simp

theorem memset_whole (mem : List Nat) (c n : Nat) (h : mem.length = n) :
    memset mem c n = List.replicate n c := by
  have := write_bytes_over (List.replicate n c) [] mem (by simpa using h)
  simpa [memset] using this

theorem brand_text_on_stack_eq (stack : List Nat) (r : Regs)
    (h : stack.length = sizeof_brand) : brand_text_on_stack stack r = brand_text r := by
  unfold brand_text_on_stack brand_text
  rw [memset_whole stack 0 sizeof_brand h]

theorem brand_on_stack_eq (stack : List Nat) (hw : Hw) (v_record : List Value)
    (h : stack.length = sizeof_brand) :
    cpuid_maximum_value_and_brand_on_stack stack hw v_record
      = cpuid_maximum_value_and_brand hw v_record := by
  unfold cpuid_maximum_value_and_brand_on_stack cpuid_maximum_value_and_brand
  simp only [brand_text_on_stack_eq _ _ h]

theorem arbitrary_on_block_run (fresh : List Value) (hw : Hw) (v_eax v_ecx : Nat)
    (h : 4 ≤ fresh.length) :
    (cpuid_arbitrary_leaf_and_subleaf_on_block fresh hw v_eax v_ecx).1
      = (cpuid_arbitrary_leaf_and_subleaf hw v_eax v_ecx).1 := by
  have h4 : 4 ≤ (fresh.take 4).length := by
    rw [List.length_take]
    omega
  have hd : (fresh.take 4).drop 4 = [] := by
    simp
  rw [arbitrary_run]
  simp only [cpuid_arbitrary_leaf_and_subleaf_on_block, __cpuid_count, to_uint32_Int_val,
    Nat.mod_mod, Store_field, caml_alloc_local_on]
  rw [set_0_to_3 _ h4, hd]

theorem set_0_1_again (l : List Value) (a0 a1 : Value) :
    (((l.set 0 a0).set 1 a1).set 0 a0).set 1 a1 = (l.set 0 a0).set 1 a1 := by
  apply List.ext_getElem?
  intro j
  simp only [List.getElem?_set, List.length_set]
  split_ifs <;> rfl

theorem set_2_3_again (l : List Value) (a2 a3 : Value) :
    (((l.set 2 a2).set 3 a3).set 2 a2).set 3 a3 = (l.set 2 a2).set 3 a3 := by
  apply List.ext_getElem?
  intro j
  simp only [List.getElem?_set, List.length_set]
  split_ifs <;> rfl

theorem set_1_2_3_again (l : List Value) (a1 a2 a3 : Value) :
    (((((l.set 1 a1).set 2 a2).set 3 a3).set 1 a1).set 2 a2).set 3 a3
      = ((l.set 1 a1).set 2 a2).set 3 a3 := by
  apply List.ext_getElem?
  intro j
  simp only [List.getElem?_set, List.length_set]
  split_ifs <;> rfl

theorem set_0_to_3_again (l : List Value) (a0 a1 a2 a3 : Value) :
    (((((((l.set 0 a0).set 1 a1).set 2 a2).set 3 a3).set 0 a0).set 1 a1).set 2 a2).set 3 a3
      = (((l.set 0 a0).set 1 a1).set 2 a2).set 3 a3 := by
  apply List.ext_getElem?
  intro j
  simp only [List.getElem?_set, List.length_set]
  split_ifs <;> rfl

theorem set_0_to_4_again (l : List Value) (a0 a1 a2 a3 a4 : Value) :
    (((((((((l.set 0 a0).set 1 a1).set 2 a2).set 3 a3).set 4 a4).set 0 a0).set 1 a1).set 2
        a2).set 3 a3).set 4 a4
      = ((((l.set 0 a0).set 1 a1).set 2 a2).set 3 a3).set 4 a4 := by
  apply List.ext_getElem?
  intro j
  simp only [List.getElem?_set, List.length_set]
  split_ifs <;> rfl

theorem set_0_to_5_again (l : List Value) (a0 a1 a2 a3 a4 a5 : Value) :
    (((((((((((l.set 0 a0).set 1 a1).set 2 a2).set 3 a3).set 4 a4).set 5 a5).set 0 a0).set 1
        a1).set 2 a2).set 3 a3).set 4 a4).set 5 a5
      = (((((l.set 0 a0).set 1 a1).set 2 a2).set 3 a3).set 4 a4).set 5 a5 := by
  apply List.ext_getElem?
  intro j
  simp only [List.getElem?_set, List.length_set]
  split_ifs <;> rfl



/-- C13: the outputs of the stubs depend on nothing but their arguments and
the answer of the CPUID instruction at the pair they query.  They do not
depend on what the memory they use held before: the raw stub returns the same
block whatever words its fresh block is carved from, and the brand stub the
same outputs whatever bytes lie under its union.  A processor that gives the
same answer at the queried pair, whatever its other answers and its query
history, yields the same outputs.  A second, consecutive call yields what the
first call yielded, also when it is given the records the first call wrote
into and runs on the memory the first call left behind. -/
theorem stubs_deterministic (hw hw' : Hw) (w_eax w_ecx : Nat) (fresh : List Value)
    (stack : List Nat) (v_eax v_ebx v_record : List Value)
    (hfresh : 4 ≤ fresh.length) (hstack : stack.length = sizeof_brand)
    (hq : hw'.cpuid (to_uint32 (Int_val w_eax)) (to_uint32 (Int_val w_ecx))
      = hw.cpuid (to_uint32 (Int_val w_eax)) (to_uint32 (Int_val w_ecx)))
    (h0 : hw'.cpuid 0 0 = hw.cpuid 0 0) (h1 : hw'.cpuid 1 0 = hw.cpuid 1 0)
    (h7 : hw'.cpuid 7 0 = hw.cpuid 7 0) :
    ((cpuid_arbitrary_leaf_and_subleaf_on_block fresh hw w_eax w_ecx).1
        = (cpuid_arbitrary_leaf_and_subleaf hw w_eax w_ecx).1 ∧
      (cpuid_arbitrary_leaf_and_subleaf hw' w_eax w_ecx).1
        = (cpuid_arbitrary_leaf_and_subleaf hw w_eax w_ecx).1 ∧
      (cpuid_arbitrary_leaf_and_subleaf_on_block fresh
          (cpuid_arbitrary_leaf_and_subleaf hw w_eax w_ecx).2 w_eax w_ecx).1
        = (cpuid_arbitrary_leaf_and_subleaf hw w_eax w_ecx).1) ∧
    (∃ out, cpuid_maximum_value_and_brand hw v_record = some out ∧
      (cpuid_maximum_value_and_brand_on_stack stack hw v_record).map Result1.outputs
        = some out.outputs ∧
      (cpuid_maximum_value_and_brand hw' v_record).map Result1.outputs = some out.outputs ∧
      (cpuid_maximum_value_and_brand_on_stack stack out.hw out.v_record).map Result1.outputs
        = some out.outputs) ∧
    ((intel_cpuid_version_and_feature_information hw' v_eax v_ebx v_record).outputs
        = (intel_cpuid_version_and_feature_information hw v_eax v_ebx v_record).outputs ∧
      (intel_cpuid_version_and_feature_information
          (intel_cpuid_version_and_feature_information hw v_eax v_ebx v_record).hw
          (intel_cpuid_version_and_feature_information hw v_eax v_ebx v_record).v_eax
          (intel_cpuid_version_and_feature_information hw v_eax v_ebx v_record).v_ebx
          (intel_cpuid_version_and_feature_information hw v_eax v_ebx v_record).v_record).outputs
        = (intel_cpuid_version_and_feature_information hw v_eax v_ebx v_record).outputs) ∧
    ((amd_cpuid_version_and_feature_information hw' v_eax v_ebx v_record).outputs
        = (amd_cpuid_version_and_feature_information hw v_eax v_ebx v_record).outputs ∧
      (amd_cpuid_version_and_feature_information
          (amd_cpuid_version_and_feature_information hw v_eax v_ebx v_record).hw
          (amd_cpuid_version_and_feature_information hw v_eax v_ebx v_record).v_eax
          (amd_cpuid_version_and_feature_information hw v_eax v_ebx v_record).v_ebx
          (amd_cpuid_version_and_feature_information hw v_eax v_ebx v_record).v_record).outputs
        = (amd_cpuid_version_and_feature_information hw v_eax v_ebx v_record).outputs) ∧
    ((cpuid_extended_feature_flags_subleaf0 hw' v_record).outputs
        = (cpuid_extended_feature_flags_subleaf0 hw v_record).outputs ∧
      (cpuid_extended_feature_flags_subleaf0
          (cpuid_extended_feature_flags_subleaf0 hw v_record).hw
          (cpuid_extended_feature_flags_subleaf0 hw v_record).v_record).outputs
        = (cpuid_extended_feature_flags_subleaf0 hw v_record).outputs) := by
  rw [to_uint32_Int_val, to_uint32_Int_val] at hq
  refine ⟨⟨arbitrary_on_block_run fresh hw w_eax w_ecx hfresh, ?_, ?_⟩,
    ⟨_, brand_run hw v_record, ?_, ?_, ?_⟩, ⟨?_, ?_⟩, ⟨?_, ?_⟩, ⟨?_, ?_⟩⟩
  · simp only [arbitrary_run, hq]
  · rw [arbitrary_on_block_run fresh _ w_eax w_ecx hfresh]
    simp only [arbitrary_run]
  · rw [brand_on_stack_eq stack hw v_record hstack, brand_run]
    rfl
  · rw [brand_run, h0]
    rfl
  · rw [brand_on_stack_eq stack _ _ hstack, brand_run]
    simp only [Option.map_some', Result1.outputs, set_0_1_again]
  · simp only [intel_run, Result3.outputs, h1]
  · simp only [intel_run, Result3.outputs, set_0_to_5_again, set_0_to_3_again, set_2_3_again]
  · simp only [amd_run, Result3.outputs, h1]
  · simp only [amd_run, Result3.outputs, set_0_to_4_again, set_0_to_3_again, set_2_3_again]
  · simp only [extended_run, Result1.outputs, h7]
  · simp only [extended_run, Result1.outputs, set_1_2_3_again]

/-- Witness of C13: the echoing processor against one that differs at leaf 4
and in its query history, the raw query (0x80000002, 7), a block carved from
stale words and a union on stale non-zero bytes. -/
theorem stubs_deterministic_witness :
    4 ≤ stale_block.length ∧ stale_stack.length = sizeof_brand ∧
    hw_echo_variant.cpuid (to_uint32 (Int_val (2 * 0x80000002 + 1)))
        (to_uint32 (Int_val (2 * 7 + 1)))
      = hw_echo.cpuid (to_uint32 (Int_val (2 * 0x80000002 + 1)))
        (to_uint32 (Int_val (2 * 7 + 1))) ∧
    hw_echo_variant.cpuid 0 0 = hw_echo.cpuid 0 0 ∧
    hw_echo_variant.cpuid 1 0 = hw_echo.cpuid 1 0 ∧
    hw_echo_variant.cpuid 7 0 = hw_echo.cpuid 7 0 ∧
    hw_echo_variant.cpuid 4 0 ≠ hw_echo.cpuid 4 0 ∧
    (cpuid_arbitrary_leaf_and_subleaf_on_block stale_block hw_echo (2 * 0x80000002 + 1)
        (2 * 7 + 1)).1
      = (cpuid_arbitrary_leaf_and_subleaf hw_echo (2 * 0x80000002 + 1) (2 * 7 + 1)).1 ∧
    (cpuid_arbitrary_leaf_and_subleaf hw_echo_variant (2 * 0x80000002 + 1) (2 * 7 + 1)).1
      = (cpuid_arbitrary_leaf_and_subleaf hw_echo (2 * 0x80000002 + 1) (2 * 7 + 1)).1 ∧
    (intel_cpuid_version_and_feature_information hw_echo_variant (record_of_size 6)
        (record_of_size 4) (record_of_size 4)).outputs
      = (intel_cpuid_version_and_feature_information hw_echo (record_of_size 6)
        (record_of_size 4) (record_of_size 4)).outputs ∧
    (cpuid_maximum_value_and_brand_on_stack stale_stack hw_echo (record_of_size 4)).map
        Result1.outputs
      = (cpuid_maximum_value_and_brand hw_echo (record_of_size 4)).map Result1.outputs :=
  ⟨by decide, by decide, by decide, by decide, by decide, by decide, by decide,
    (stubs_deterministic hw_echo hw_echo_variant (2 * 0x80000002 + 1) (2 * 7 + 1) stale_block
      stale_stack (record_of_size 6) (record_of_size 4) (record_of_size 4)
      (by decide) (by decide) (by decide) (by decide) (by decide) (by decide)).1.1,
    (stubs_deterministic hw_echo hw_echo_variant (2 * 0x80000002 + 1) (2 * 7 + 1) stale_block
      stale_stack (record_of_size 6) (record_of_size 4) (record_of_size 4)
      (by decide) (by decide) (by decide) (by decide) (by decide) (by decide)).1.2.1,
    (stubs_deterministic hw_echo hw_echo_variant (2 * 0x80000002 + 1) (2 * 7 + 1) stale_block
      stale_stack (record_of_size 6) (record_of_size 4) (record_of_size 4)
      (by decide) (by decide) (by decide) (by decide) (by decide) (by decide)).2.2.1.1,
    (stubs_deterministic hw_echo hw_echo_variant (2 * 0x80000002 + 1) (2 * 7 + 1) stale_block
      stale_stack (record_of_size 6) (record_of_size 4) (record_of_size 4)
      (by decide) (by decide) (by decide) (by decide) (by decide) (by decide)).2.1.elim
      (fun _ h => h.2.1.trans (congrArg (Option.map Result1.outputs) h.1).symm)⟩

theorem agree_low14 (a b : Nat) (h : a % 2 ^ 14 = b % 2 ^ 14) :
    a % 2 ^ 4 = b % 2 ^ 4 ∧ a / 2 ^ 4 % 2 ^ 4 = b / 2 ^ 4 % 2 ^ 4 ∧
    a / 2 ^ 8 % 2 ^ 4 = b / 2 ^ 8 % 2 ^ 4 ∧ a / 2 ^ 12 % 2 ^ 2 = b / 2 ^ 12 % 2 ^ 2 := by
  refine ⟨?_, ?_, ?_, ?_⟩ <;> omega

theorem agree_low12 (a b : Nat) (h : a % 2 ^ 12 = b % 2 ^ 12) :
    a % 2 ^ 4 = b % 2 ^ 4 ∧ a / 2 ^ 4 % 2 ^ 4 = b / 2 ^ 4 % 2 ^ 4 ∧
    a / 2 ^ 8 % 2 ^ 4 = b / 2 ^ 8 % 2 ^ 4 := by
  refine ⟨?_, ?_, ?_⟩ <;> omega

theorem agree_high (a b : Nat) (h : a / 2 ^ 16 % 2 ^ 12 = b / 2 ^ 16 % 2 ^ 12) :
    a / 2 ^ 16 % 2 ^ 4 = b / 2 ^ 16 % 2 ^ 4 ∧ a / 2 ^ 20 % 2 ^ 8 = b / 2 ^ 20 % 2 ^ 8 := by
  have ha : a / 2 ^ 20 = a / 2 ^ 16 / 2 ^ 4 := by
    rw [Nat.div_div_eq_div_mul]; rfl
  have hb : b / 2 ^ 20 = b / 2 ^ 16 / 2 ^ 4 := by
    rw [Nat.div_div_eq_div_mul]; rfl
  rw [ha, hb]
  generalize a / 2 ^ 16 = x at h ⊢
  generalize b / 2 ^ 16 = y at h ⊢
  refine ⟨?_, ?_⟩ <;> omega

/-! ## Padding bits -/

/-- C14: the padding bits are discarded.  If EAX on a second processor differs
from EAX on the first only in bits 15:14 and 31:28 (bits 13:0 and 27:16
agree), the Intel version function stores the same version fields on both;
if EAX on a third processor differs from the first only in bits 15:12 and
31:28 (bits 11:0 and 27:16 agree), the AMD version function stores the same
version fields on both, whatever bits 13:12 are. -/
theorem padding_bits_discarded (hw hw_intel hw_amd : Hw) (v_eax v_ebx v_record : List Value)
    (hi_low : (hw_intel.cpuid 1 0).eax % 2 ^ 14 = (hw.cpuid 1 0).eax % 2 ^ 14)
    (hi_high : (hw_intel.cpuid 1 0).eax / 2 ^ 16 % 2 ^ 12 = (hw.cpuid 1 0).eax / 2 ^ 16 % 2 ^ 12)
    (ha_low : (hw_amd.cpuid 1 0).eax % 2 ^ 12 = (hw.cpuid 1 0).eax % 2 ^ 12)
    (ha_high : (hw_amd.cpuid 1 0).eax / 2 ^ 16 % 2 ^ 12 = (hw.cpuid 1 0).eax / 2 ^ 16 % 2 ^ 12) :
    (intel_cpuid_version_and_feature_information hw_intel v_eax v_ebx v_record).v_eax
      = (intel_cpuid_version_and_feature_information hw v_eax v_ebx v_record).v_eax ∧
    (amd_cpuid_version_and_feature_information hw_amd v_eax v_ebx v_record).v_eax
      = (amd_cpuid_version_and_feature_information hw v_eax v_ebx v_record).v_eax := by
  obtain ⟨i0, i1, i2, i3⟩ := agree_low14 _ _ hi_low
  obtain ⟨i4, i5⟩ := agree_high _ _ hi_high
  obtain ⟨a0, a1, a2⟩ := agree_low12 _ _ ha_low
  obtain ⟨a4, a5⟩ := agree_high _ _ ha_high
  constructor
  · simp only [intel_run, i0, i1, i2, i3, i4, i5]
  · simp only [amd_run, a0, a1, a2, a4, a5]

/-- Witness of C14: EAX = 0x000906EA against 0xF009C6EA (bits 15:14 and 31:28
set) for Intel and against 0xF009F6EA (bits 15:12 and 31:28 set) for AMD. -/
theorem padding_bits_discarded_witness :
    (hw_906ea_intel_padding.cpuid 1 0).eax % 2 ^ 14 = (hw_906ea.cpuid 1 0).eax % 2 ^ 14 ∧
    (hw_906ea_intel_padding.cpuid 1 0).eax / 2 ^ 16 % 2 ^ 12
      = (hw_906ea.cpuid 1 0).eax / 2 ^ 16 % 2 ^ 12 ∧
    (hw_906ea_amd_padding.cpuid 1 0).eax % 2 ^ 12 = (hw_906ea.cpuid 1 0).eax % 2 ^ 12 ∧
    (hw_906ea_amd_padding.cpuid 1 0).eax / 2 ^ 16 % 2 ^ 12
      = (hw_906ea.cpuid 1 0).eax / 2 ^ 16 % 2 ^ 12 ∧
    (hw_906ea_intel_padding.cpuid 1 0).eax ≠ (hw_906ea.cpuid 1 0).eax ∧
    (hw_906ea_amd_padding.cpuid 1 0).eax / 2 ^ 12 % 2 ^ 2
      ≠ (hw_906ea.cpuid 1 0).eax / 2 ^ 12 % 2 ^ 2 ∧
    (intel_cpuid_version_and_feature_information hw_906ea_intel_padding (record_of_size 6)
        (record_of_size 4) (record_of_size 4)).v_eax
      = (intel_cpuid_version_and_feature_information hw_906ea (record_of_size 6)
        (record_of_size 4) (record_of_size 4)).v_eax ∧
    (amd_cpuid_version_and_feature_information hw_906ea_amd_padding (record_of_size 6)
        (record_of_size 4) (record_of_size 4)).v_eax
      = (amd_cpuid_version_and_feature_information hw_906ea (record_of_size 6)
        (record_of_size 4) (record_of_size 4)).v_eax :=
  ⟨by decide, by decide, by decide, by decide, by decide, by decide,
    padding_bits_discarded hw_906ea hw_906ea_intel_padding hw_906ea_amd_padding
      (record_of_size 6) (record_of_size 4) (record_of_size 4)
      (by decide) (by decide) (by decide) (by decide)⟩

/-! ## The terminator of the brand string -/

theorem brand_text_spec (hw : Hw) :
    brand_text (__cpuid_count hw MAXIMUM_VALUE_AND_BRAND_LEAF 0).1
      = spec_brand_bytes (hw.cpuid 0 0).ebx (hw.cpuid 0 0).edx (hw.cpuid 0 0).ecx ++ [0] := by
  simp only [__cpuid_count, MAXIMUM_VALUE_AND_BRAND_LEAF, brand_text_eq, bytes_of_uint32_mod]
  rfl

theorem spec_brand_bytes_length (ebx edx ecx : Nat) :
    (spec_brand_bytes ebx edx ecx).length = 12 := by
  rfl

theorem dropWhile_nonzero_head (l : List Nat) :
    l.dropWhile (fun b => b != 0) = [] ∨ (l.dropWhile (fun b => b != 0)).head? = some 0 := by
  induction l with
  | nil => simp
  | cons c s ih =>
    by_cases hc : c = 0
    · simp [hc]
    · simpa [hc] using ih

/-- C15: the brand string stored in slot 1 is the part of the 12-byte buffer
EBX, EDX, ECX (little-endian) before its first zero byte: the buffer is the
string followed by a rest that is empty or starts with a zero byte, the
string holds no zero byte and has at most 12 bytes, and it is the whole
buffer when no byte is zero.  The text the stub scans has 13 bytes, its byte
12 is zero, and strlen finds the terminator inside it. -/
theorem brand_string_bounds (hw : Hw) (v_record : List Value)
    (hlen : 2 ≤ v_record.length) :
    (brand_text (__cpuid_count hw MAXIMUM_VALUE_AND_BRAND_LEAF 0).1).length = 13 ∧
    (brand_text (__cpuid_count hw MAXIMUM_VALUE_AND_BRAND_LEAF 0).1)[12]? = some 0 ∧
    ∃ out s rest, cpuid_maximum_value_and_brand hw v_record = some out ∧
      out.v_record[1]? = some (Value.str s) ∧
      s ++ rest = spec_brand_bytes (hw.cpuid 0 0).ebx (hw.cpuid 0 0).edx (hw.cpuid 0 0).ecx ∧
      0 ∉ s ∧ (rest = [] ∨ rest.head? = some 0) ∧
      s.length ≤ 12 ∧
      ((∀ b ∈ spec_brand_bytes (hw.cpuid 0 0).ebx (hw.cpuid 0 0).edx (hw.cpuid 0 0).ecx,
          b ≠ 0) →
        s = spec_brand_bytes (hw.cpuid 0 0).ebx (hw.cpuid 0 0).edx (hw.cpuid 0 0).ecx) ∧
      strlen (brand_text (__cpuid_count hw MAXIMUM_VALUE_AND_BRAND_LEAF 0).1)
        = some s.length ∧
      s.length < (brand_text (__cpuid_count hw MAXIMUM_VALUE_AND_BRAND_LEAF 0).1).length := by
  have hsplit := List.takeWhile_append_dropWhile (fun b => b != 0)
    (spec_brand_bytes (hw.cpuid 0 0).ebx (hw.cpuid 0 0).edx (hw.cpuid 0 0).ecx)
  have hle : ((spec_brand_bytes (hw.cpuid 0 0).ebx (hw.cpuid 0 0).edx
      (hw.cpuid 0 0).ecx).takeWhile (fun b => b != 0)).length ≤ 12 := by
    have h := congrArg List.length hsplit
    rw [List.length_append, spec_brand_bytes_length] at h
    omega
  rw [brand_text_spec]
  refine ⟨by rw [List.length_append, spec_brand_bytes_length]; rfl, ?_, _, _, _,
    brand_run hw v_record, set_set_slot1 _ _ _ hlen, hsplit, ?_, dropWhile_nonzero_head _,
    hle, ?_, strlen_terminated _ _, ?_⟩
  · rw [List.getElem?_append_right (by rw [spec_brand_bytes_length]),
      spec_brand_bytes_length]
    rfl
  · intro hmem
    have := List.mem_takeWhile_imp hmem
    simp at this
  · intro hnz
    rw [List.takeWhile_eq_self_iff]
    intro b hb
    simpa using hnz b hb
  · rw [List.length_append, spec_brand_bytes_length]
    simp only [List.length_singleton]
    omega

/-- Witness of C15: the processor with a zero byte inside EBX, whose brand
string is the single byte 0x41. -/
theorem brand_string_bounds_witness :
    2 ≤ brand_record.length ∧
    ∃ out s rest, cpuid_maximum_value_and_brand hw_inner_zero brand_record = some out ∧
      out.v_record[1]? = some (Value.str s) ∧
      s ++ rest = spec_brand_bytes (hw_inner_zero.cpuid 0 0).ebx (hw_inner_zero.cpuid 0 0).edx
        (hw_inner_zero.cpuid 0 0).ecx ∧
      0 ∉ s ∧ (rest = [] ∨ rest.head? = some 0) ∧ s.length ≤ 12 :=
  ⟨by decide,
    (brand_string_bounds hw_inner_zero brand_record (by decide)).2.2.elim
      (fun out h => h.elim (fun s h => h.elim (fun rest h =>
        ⟨out, s, rest, h.1, h.2.1, h.2.2.1, h.2.2.2.1, h.2.2.2.2.1, h.2.2.2.2.2.1⟩)))⟩

/-! ## Tagged integers -/

theorem Val_long_eq (n : Int) : Val_long n = ((2 * n + 1) % 2 ^ 64).toNat := by
  unfold Val_long uintnat intnat
  split <;> omega

theorem to_uint32_Int_val_Long_val (w : Nat) :
    to_uint32 (Int_val w) = (Long_val w % 2 ^ 32).toNat := by
  rw [to_uint32_Int_val]
  unfold Long_val intnat
  split <;> omega

theorem to_uint32_Int_val_Val_long (n : Int) :
    to_uint32 (Int_val (Val_long n)) = (n % 2 ^ 32).toNat := by
  rw [to_uint32_Int_val, Val_long_eq]
  omega

theorem Long_val_Val_long_int (n : Int) (h1 : -(2 ^ 62) ≤ n) (h2 : n < 2 ^ 62) :
    Long_val (Val_long n) = n := by
  rw [Val_long_eq]
  unfold Long_val intnat
  split <;> omega

theorem Val_int_eq (x : Nat) (hx : x < 2 ^ 32) : Val_int x = Value.imm (2 * x + 1) := by
  unfold Val_int
  rw [Val_long_eq]
  congr 1
  omega

theorem query_of_Val_long (n : Int) : Val_long n % 2 ^ 64 / 2 % 2 ^ 32 = (n % 2 ^ 32).toNat := by
  rw [← to_uint32_Int_val, to_uint32_Int_val_Val_long]

/-- C16: for every 32-bit register value x, bit 31 set or not, Val_int stores
the 64-bit word 2 * x + 1, which reads back as the non-negative OCaml integer
x.  On input, Int_val followed by the conversion to uint32_t maps the word
of every integer n to n mod 2^32, and every word w to the residue mod 2^32
of the OCaml integer it denotes; the word of an integer n of the 63-bit range
denotes n.  In the stubs: called with the integers n and m,
cpuid_arbitrary_leaf_and_subleaf queries (n mod 2^32, m mod 2^32) and stores
the word 2 * x + 1 in field 0 when that query answers EAX = x, and
cpuid_extended_feature_flags_subleaf0 returns the word 2 * x + 1, the integer
x, when leaf 0x07 answers EAX = x. -/
theorem tagged_integer_roundtrip (x : Nat) (hx : x < 2 ^ 32) (n : Int) (w : Nat) (hw : Hw)
    (m : Int) (v_record : List Value) :
    Val_int x = Value.imm (2 * x + 1) ∧ 2 * x + 1 < 2 ^ 64 ∧
    (Val_int x).toInt? = some (x : Int) ∧ (0 : Int) ≤ (x : Int) ∧
    to_uint32 (Int_val (Val_long n)) = (n % 2 ^ 32).toNat ∧
    to_uint32 (Int_val w) = (Long_val w % 2 ^ 32).toNat ∧
    (-(2 ^ 62) ≤ n → n < 2 ^ 62 → Long_val (Val_long n) = n) ∧
    (cpuid_arbitrary_leaf_and_subleaf hw (Val_long n) (Val_long m)).2.log
      = hw.log ++ [((n % 2 ^ 32).toNat, (m % 2 ^ 32).toNat)] ∧
    ((hw.cpuid (n % 2 ^ 32).toNat (m % 2 ^ 32).toNat).eax = x →
      (cpuid_arbitrary_leaf_and_subleaf hw (Val_long n) (Val_long m)).1[0]?
        = some (Value.imm (2 * x + 1))) ∧
    ((hw.cpuid 7 0).eax = x →
      (cpuid_extended_feature_flags_subleaf0 hw v_record).ret = Value.imm (2 * x + 1) ∧
      (cpuid_extended_feature_flags_subleaf0 hw v_record).ret.toInt? = some (x : Int)) := by
  refine ⟨Val_int_eq x hx, by omega, toInt?_Val_int x hx, by omega,
    to_uint32_Int_val_Val_long n, to_uint32_Int_val_Long_val w, Long_val_Val_long_int n,
    ?_, ?_, ?_⟩
  · rw [arbitrary_run, query_of_Val_long, query_of_Val_long]
  · intro h
    rw [arbitrary_run, query_of_Val_long, query_of_Val_long, h, Nat.mod_eq_of_lt hx,
      Val_int_eq x hx]
    rfl
  · intro h
    rw [extended_run]
    simp only [h, Nat.mod_eq_of_lt hx]
    exact ⟨Val_int_eq x hx, toInt?_Val_int x hx⟩

/-- Witness of C16: the register value 0xFFFFFFFF, the integer -1, the word of
the integer 2^32 + 5, and the raw stub called with the integers -1 and 7. -/
theorem tagged_integer_roundtrip_witness :
    0xFFFFFFFF < 2 ^ 32 ∧
    Val_int 0xFFFFFFFF = Value.imm 0x1FFFFFFFF ∧
    (Val_int 0xFFFFFFFF).toInt? = some 4294967295 ∧
    to_uint32 (Int_val (Val_long (-1))) = 0xFFFFFFFF ∧
    to_uint32 (Int_val (2 * (2 ^ 32 + 5) + 1)) = 5 ∧
    (cpuid_arbitrary_leaf_and_subleaf hw_echo (Val_long (-1)) (Val_long 7)).2.log
      = [(0xFFFFFFFF, 7)] ∧
    (cpuid_arbitrary_leaf_and_subleaf hw_echo (Val_long (-1)) (Val_long 7)).1[0]?
      = some (Value.imm 0x1FFFFFFFF) :=
  ⟨by decide,
    (tagged_integer_roundtrip 0xFFFFFFFF (by decide) (-1) (2 * (2 ^ 32 + 5) + 1) hw_echo 7
      (record_of_size 4)).1,
    (tagged_integer_roundtrip 0xFFFFFFFF (by decide) (-1) (2 * (2 ^ 32 + 5) + 1) hw_echo 7
      (record_of_size 4)).2.2.1,
    (tagged_integer_roundtrip 0xFFFFFFFF (by decide) (-1) (2 * (2 ^ 32 + 5) + 1) hw_echo 7
      (record_of_size 4)).2.2.2.2.1,
    (tagged_integer_roundtrip 0xFFFFFFFF (by decide) (-1) (2 * (2 ^ 32 + 5) + 1) hw_echo 7
      (record_of_size 4)).2.2.2.2.2.1,
    (tagged_integer_roundtrip 0xFFFFFFFF (by decide) (-1) (2 * (2 ^ 32 + 5) + 1) hw_echo 7
      (record_of_size 4)).2.2.2.2.2.2.2.1,
    (tagged_integer_roundtrip 0xFFFFFFFF (by decide) (-1) (2 * (2 ^ 32 + 5) + 1) hw_echo 7
      (record_of_size 4)).2.2.2.2.2.2.2.2.1 rfl⟩

/-! ## The slots a stub leaves alone -/

theorem drop_set_lt (l : List Value) (i n : Nat) (a : Value) (h : i < n) :
    (l.set i a).drop n = l.drop n :=
  List.drop_set_of_lt a l h

theorem take_set_le (l : List Value) (i n : Nat) (a : Value) (h : n ≤ i) :
    (l.set i a).take n = l.take n := by
  rcases Nat.eq_or_lt_of_le h with h | h
  · subst h
    apply List.ext_getElem?
    intro j
    by_cases hj : j < n
    · simp [List.getElem?_take, hj, List.getElem?_set_ne (Nat.ne_of_gt hj)]
    · simp [List.getElem?_take, hj]
  · exact List.take_set_of_lt a l h

/-- C17: each stub writes only its own slots and keeps the size of every
record.  cpuid_maximum_value_and_brand leaves every slot from 2 on unchanged.
Both version functions leave slots 0 and 1 and every slot from 4 on of the
outer record unchanged, every slot from 4 on of the misc record, and every
slot from 6 on (Intel) or from 5 on (AMD) of the version record.
cpuid_extended_feature_flags_subleaf0 leaves slot 0 and every slot from 4 on
unchanged and delivers EAX as its return value. -/
theorem stubs_write_only_their_slots (hw : Hw) (v_eax v_ebx v_record : List Value) :
    (∃ out, cpuid_maximum_value_and_brand hw v_record = some out ∧
      out.v_record.length = v_record.length ∧ out.v_record.drop 2 = v_record.drop 2) ∧
    ((intel_cpuid_version_and_feature_information hw v_eax v_ebx v_record).v_record.length
        = v_record.length ∧
      (intel_cpuid_version_and_feature_information hw v_eax v_ebx v_record).v_record.take 2
        = v_record.take 2 ∧
      (intel_cpuid_version_and_feature_information hw v_eax v_ebx v_record).v_record.drop 4
        = v_record.drop 4 ∧
      (intel_cpuid_version_and_feature_information hw v_eax v_ebx v_record).v_ebx.length
        = v_ebx.length ∧
      (intel_cpuid_version_and_feature_information hw v_eax v_ebx v_record).v_ebx.drop 4
        = v_ebx.drop 4 ∧
      (intel_cpuid_version_and_feature_information hw v_eax v_ebx v_record).v_eax.length
        = v_eax.length ∧
      (intel_cpuid_version_and_feature_information hw v_eax v_ebx v_record).v_eax.drop 6
        = v_eax.drop 6) ∧
    ((amd_cpuid_version_and_feature_information hw v_eax v_ebx v_record).v_record.length
        = v_record.length ∧
      (amd_cpuid_version_and_feature_information hw v_eax v_ebx v_record).v_record.take 2
        = v_record.take 2 ∧
      (amd_cpuid_version_and_feature_information hw v_eax v_ebx v_record).v_record.drop 4
        = v_record.drop 4 ∧
      (amd_cpuid_version_and_feature_information hw v_eax v_ebx v_record).v_ebx.length
        = v_ebx.length ∧
      (amd_cpuid_version_and_feature_information hw v_eax v_ebx v_record).v_ebx.drop 4
        = v_ebx.drop 4 ∧
      (amd_cpuid_version_and_feature_information hw v_eax v_ebx v_record).v_eax.length
        = v_eax.length ∧
      (amd_cpuid_version_and_feature_information hw v_eax v_ebx v_record).v_eax.drop 5
        = v_eax.drop 5) ∧
    ((cpuid_extended_feature_flags_subleaf0 hw v_record).v_record.length = v_record.length ∧
      (cpuid_extended_feature_flags_subleaf0 hw v_record).v_record.take 1
        = v_record.take 1 ∧
      (cpuid_extended_feature_flags_subleaf0 hw v_record).v_record.drop 4
        = v_record.drop 4 ∧
      (cpuid_extended_feature_flags_subleaf0 hw v_record).ret
        = Val_int ((hw.cpuid 7 0).eax % 2 ^ 32)) := by
  refine ⟨⟨_, brand_run hw v_record, ?_, ?_⟩, ?_, ?_, ?_⟩
  · simp only [List.length_set]
  · rw [drop_set_lt _ _ _ _ (by decide), drop_set_lt _ _ _ _ (by decide)]
  · rw [intel_run]
    refine ⟨?_, ?_, ?_, ?_, ?_, ?_, ?_⟩
    · simp only [List.length_set]
    · rw [take_set_le _ _ _ _ (by decide), take_set_le _ _ _ _ (by decide)]
    · rw [drop_set_lt _ _ _ _ (by decide), drop_set_lt _ _ _ _ (by decide)]
    · simp only [List.length_set]
    · rw [drop_set_lt _ _ _ _ (by decide), drop_set_lt _ _ _ _ (by decide),
        drop_set_lt _ _ _ _ (by decide), drop_set_lt _ _ _ _ (by decide)]
    · simp only [List.length_set]
    · rw [drop_set_lt _ _ _ _ (by decide), drop_set_lt _ _ _ _ (by decide),
        drop_set_lt _ _ _ _ (by decide), drop_set_lt _ _ _ _ (by decide),
        drop_set_lt _ _ _ _ (by decide), drop_set_lt _ _ _ _ (by decide)]
  · rw [amd_run]
    refine ⟨?_, ?_, ?_, ?_, ?_, ?_, ?_⟩
    · simp only [List.length_set]
    · rw [take_set_le _ _ _ _ (by decide), take_set_le _ _ _ _ (by decide)]
    · rw [drop_set_lt _ _ _ _ (by decide), drop_set_lt _ _ _ _ (by decide)]
    · simp only [List.length_set]
    · rw [drop_set_lt _ _ _ _ (by decide), drop_set_lt _ _ _ _ (by decide),
        drop_set_lt _ _ _ _ (by decide), drop_set_lt _ _ _ _ (by decide)]
    · simp only [List.length_set]
    · rw [drop_set_lt _ _ _ _ (by decide), drop_set_lt _ _ _ _ (by decide),
        drop_set_lt _ _ _ _ (by decide), drop_set_lt _ _ _ _ (by decide),
        drop_set_lt _ _ _ _ (by decide)]
  · rw [extended_run]
    refine ⟨?_, ?_, ?_, rfl⟩
    · simp only [List.length_set]
    · rw [take_set_le _ _ _ _ (by decide), take_set_le _ _ _ _ (by decide),
        take_set_le _ _ _ _ (by decide)]
    · rw [drop_set_lt _ _ _ _ (by decide), drop_set_lt _ _ _ _ (by decide),
        drop_set_lt _ _ _ _ (by decide)]

/-! ## Recomposing the registers from the fields -/

theorem land_split (x a b k : Nat) (ha : a < 2 ^ k) :
    x &&& (2 ^ k * b + a) = 2 ^ k * (x / 2 ^ k &&& b) + (x % 2 ^ k &&& a) := by
  apply Nat.eq_of_testBit_eq
  intro j
  have hlt : x % 2 ^ k &&& a < 2 ^ k := Nat.and_lt_two_pow _ ha
  rw [Nat.testBit_and, Nat.testBit_mul_pow_two_add b ha, Nat.testBit_mul_pow_two_add _ hlt]
  by_cases hj : j < k
  · simp [hj]
  · have hjk : k + (j - k) = j := by omega
    simp only [hj, if_false, Nat.testBit_and, ← Nat.shiftRight_eq_div_pow,
      Nat.testBit_shiftRight, hjk]

theorem land_intel_mask (x : Nat) :
    x &&& 0x0FFF3FFF = x % 2 ^ 14 + (x / 2 ^ 16 % 2 ^ 12) * 2 ^ 16 := by
  have h1 := land_split x (2 ^ 14 - 1) (2 ^ 2 * (2 ^ 12 - 1) + 0) 14 (by norm_num)
  have h2 := land_split (x / 2 ^ 14) 0 (2 ^ 12 - 1) 2 (by norm_num)
  have h3 := Nat.and_pow_two_sub_one_eq_mod (x % 2 ^ 14) 14
  have h4 := Nat.and_pow_two_sub_one_eq_mod (x / 2 ^ 14 / 2 ^ 2) 12
  have hm : (0x0FFF3FFF : Nat) = 2 ^ 14 * (2 ^ 2 * (2 ^ 12 - 1) + 0) + (2 ^ 14 - 1) := by
    norm_num
  rw [hm, h1, h2, h3, h4]
  simp only [Nat.and_zero]
  omega

theorem land_amd_mask (x : Nat) :
    x &&& 0x0FFF0FFF = x % 2 ^ 12 + (x / 2 ^ 16 % 2 ^ 12) * 2 ^ 16 := by
  have h1 := land_split x (2 ^ 12 - 1) (2 ^ 4 * (2 ^ 12 - 1) + 0) 12 (by norm_num)
  have h2 := land_split (x / 2 ^ 12) 0 (2 ^ 12 - 1) 4 (by norm_num)
  have h3 := Nat.and_pow_two_sub_one_eq_mod (x % 2 ^ 12) 12
  have h4 := Nat.and_pow_two_sub_one_eq_mod (x / 2 ^ 12 / 2 ^ 4) 12
  have hm : (0x0FFF0FFF : Nat) = 2 ^ 12 * (2 ^ 4 * (2 ^ 12 - 1) + 0) + (2 ^ 12 - 1) := by
    norm_num
  rw [hm, h1, h2, h3, h4]
  simp only [Nat.and_zero]
  omega

theorem intel_fields_sum (x : Nat) :
    x % 2 ^ 4 + x / 2 ^ 4 % 2 ^ 4 * 2 ^ 4 + x / 2 ^ 8 % 2 ^ 4 * 2 ^ 8
      + x / 2 ^ 12 % 2 ^ 2 * 2 ^ 12 + x / 2 ^ 16 % 2 ^ 4 * 2 ^ 16
      + x / 2 ^ 20 % 2 ^ 8 * 2 ^ 20 = x &&& 0x0FFF3FFF := by
  rw [land_intel_mask]
  omega

theorem amd_fields_sum (x : Nat) :
    x % 2 ^ 4 + x / 2 ^ 4 % 2 ^ 4 * 2 ^ 4 + x / 2 ^ 8 % 2 ^ 4 * 2 ^ 8
      + x / 2 ^ 16 % 2 ^ 4 * 2 ^ 16 + x / 2 ^ 20 % 2 ^ 8 * 2 ^ 20 = x &&& 0x0FFF0FFF := by
  rw [land_amd_mask]
  omega

theorem ebx_fields_sum (x : Nat) (h : x < 2 ^ 32) :
    x % 2 ^ 8 + x / 2 ^ 8 % 2 ^ 8 * 2 ^ 8 + x / 2 ^ 16 % 2 ^ 8 * 2 ^ 16
      + x / 2 ^ 24 % 2 ^ 8 * 2 ^ 24 = x := by
  omega

theorem intel_version_ints (hw : Hw) (v_eax v_ebx v_record : List Value)
    (hlen : 6 ≤ v_eax.length) :
    ((intel_cpuid_version_and_feature_information hw v_eax v_ebx v_record).v_eax.take 6).map
        Value.toInt? =
      [some (((hw.cpuid 1 0).eax % 2 ^ 4 : Nat) : Int),
        some (((hw.cpuid 1 0).eax / 2 ^ 4 % 2 ^ 4 : Nat) : Int),
        some (((hw.cpuid 1 0).eax / 2 ^ 8 % 2 ^ 4 : Nat) : Int),
        some (((hw.cpuid 1 0).eax / 2 ^ 12 % 2 ^ 2 : Nat) : Int),
        some (((hw.cpuid 1 0).eax / 2 ^ 16 % 2 ^ 4 : Nat) : Int),
        some (((hw.cpuid 1 0).eax / 2 ^ 20 % 2 ^ 8 : Nat) : Int)] := by
  rw [intel_run]
  simp only [set_0_to_5 _ hlen]
  simp only [List.take_succ_cons, List.take_zero, List.map_cons, List.map_nil]
  rw [toInt?_Val_int _ (by omega), toInt?_Val_int _ (by omega), toInt?_Val_int _ (by omega),
    toInt?_Val_int _ (by omega), toInt?_Val_int _ (by omega), toInt?_Val_int _ (by omega)]

theorem amd_version_ints (hw : Hw) (v_eax v_ebx v_record : List Value)
    (hlen : 5 ≤ v_eax.length) :
    ((amd_cpuid_version_and_feature_information hw v_eax v_ebx v_record).v_eax.take 5).map
        Value.toInt? =
      [some (((hw.cpuid 1 0).eax % 2 ^ 4 : Nat) : Int),
        some (((hw.cpuid 1 0).eax / 2 ^ 4 % 2 ^ 4 : Nat) : Int),
        some (((hw.cpuid 1 0).eax / 2 ^ 8 % 2 ^ 4 : Nat) : Int),
        some (((hw.cpuid 1 0).eax / 2 ^ 16 % 2 ^ 4 : Nat) : Int),
        some (((hw.cpuid 1 0).eax / 2 ^ 20 % 2 ^ 8 : Nat) : Int)] := by
  rw [amd_run]
  simp only [set_0_to_4 _ hlen]
  simp only [List.take_succ_cons, List.take_zero, List.map_cons, List.map_nil]
  rw [toInt?_Val_int _ (by omega), toInt?_Val_int _ (by omega), toInt?_Val_int _ (by omega),
    toInt?_Val_int _ (by omega), toInt?_Val_int _ (by omega)]

theorem intel_misc_ints (hw : Hw) (v_eax v_ebx v_record : List Value)
    (hlen : 4 ≤ v_ebx.length) :
    ((intel_cpuid_version_and_feature_information hw v_eax v_ebx v_record).v_ebx.take 4).map
        Value.toInt? =
      [some (((hw.cpuid 1 0).ebx % 2 ^ 8 : Nat) : Int),
        some (((hw.cpuid 1 0).ebx / 2 ^ 8 % 2 ^ 8 : Nat) : Int),
        some (((hw.cpuid 1 0).ebx / 2 ^ 16 % 2 ^ 8 : Nat) : Int),
        some (((hw.cpuid 1 0).ebx / 2 ^ 24 % 2 ^ 8 : Nat) : Int)] := by
  rw [intel_run]
  simp only [set_0_to_3 _ hlen]
  simp only [List.take_succ_cons, List.take_zero, List.map_cons, List.map_nil]
  rw [toInt?_Val_int _ (by omega), toInt?_Val_int _ (by omega), toInt?_Val_int _ (by omega),
    toInt?_Val_int _ (by omega)]

theorem amd_misc_ints (hw : Hw) (v_eax v_ebx v_record : List Value)
    (hlen : 4 ≤ v_ebx.length) :
    ((amd_cpuid_version_and_feature_information hw v_eax v_ebx v_record).v_ebx.take 4).map
        Value.toInt? =
      [some (((hw.cpuid 1 0).ebx % 2 ^ 8 : Nat) : Int),
        some (((hw.cpuid 1 0).ebx / 2 ^ 8 % 2 ^ 8 : Nat) : Int),
        some (((hw.cpuid 1 0).ebx / 2 ^ 16 % 2 ^ 8 : Nat) : Int),
        some (((hw.cpuid 1 0).ebx / 2 ^ 24 % 2 ^ 8 : Nat) : Int)] := by
  rw [amd_run]
  simp only [set_0_to_3 _ hlen]
  simp only [List.take_succ_cons, List.take_zero, List.map_cons, List.map_nil]
  rw [toInt?_Val_int _ (by omega), toInt?_Val_int _ (by omega), toInt?_Val_int _ (by omega),
    toInt?_Val_int _ (by omega)]

/-- C18: the decoding loses nothing but padding.  The four misc fields stored
by either version function recompose EBX: brand_index + clflush_line_size *
2^8 + max_addressable_logical_processors * 2^16 + initial_apic_id * 2^24 =
EBX.  The six Intel version fields satisfy stepping + model * 2^4 + family *
2^8 + type * 2^12 + emodel * 2^16 + efamily * 2^20 = EAX AND 0x0FFF3FFF, and
the five AMD version fields satisfy stepping + model * 2^4 + family * 2^8 +
emodel * 2^16 + efamily * 2^20 = EAX AND 0x0FFF0FFF. -/
theorem decoding_loses_only_padding (hw : Hw)
    (v_eax_intel v_eax_amd v_ebx v_record : List Value)
    (hi : 6 ≤ v_eax_intel.length) (ha : 5 ≤ v_eax_amd.length) (hb : 4 ≤ v_ebx.length)
    (h32 : (hw.cpuid 1 0).ebx < 2 ^ 32) :
    (∃ brand_index clflush_line_size max_addressable_logical_processors initial_apic_id : Nat,
      ((intel_cpuid_version_and_feature_information hw v_eax_intel v_ebx
          v_record).v_ebx.take 4).map Value.toInt? =
        [some (brand_index : Int), some (clflush_line_size : Int),
          some (max_addressable_logical_processors : Int), some (initial_apic_id : Int)] ∧
      ((amd_cpuid_version_and_feature_information hw v_eax_amd v_ebx
          v_record).v_ebx.take 4).map Value.toInt? =
        [some (brand_index : Int), some (clflush_line_size : Int),
          some (max_addressable_logical_processors : Int), some (initial_apic_id : Int)] ∧
      brand_index + clflush_line_size * 2 ^ 8 + max_addressable_logical_processors * 2 ^ 16
        + initial_apic_id * 2 ^ 24 = (hw.cpuid 1 0).ebx) ∧
    (∃ stepping model family type emodel efamily : Nat,
      ((intel_cpuid_version_and_feature_information hw v_eax_intel v_ebx
          v_record).v_eax.take 6).map Value.toInt? =
        [some (stepping : Int), some (model : Int), some (family : Int), some (type : Int),
          some (emodel : Int), some (efamily : Int)] ∧
      stepping + model * 2 ^ 4 + family * 2 ^ 8 + type * 2 ^ 12 + emodel * 2 ^ 16
        + efamily * 2 ^ 20 = (hw.cpuid 1 0).eax &&& 0x0FFF3FFF) ∧
    (∃ stepping model family emodel efamily : Nat,
      ((amd_cpuid_version_and_feature_information hw v_eax_amd v_ebx
          v_record).v_eax.take 5).map Value.toInt? =
        [some (stepping : Int), some (model : Int), some (family : Int),
          some (emodel : Int), some (efamily : Int)] ∧
      stepping + model * 2 ^ 4 + family * 2 ^ 8 + emodel * 2 ^ 16
        + efamily * 2 ^ 20 = (hw.cpuid 1 0).eax &&& 0x0FFF0FFF) :=
  ⟨⟨_, _, _, _, intel_misc_ints hw v_eax_intel v_ebx v_record hb,
      amd_misc_ints hw v_eax_amd v_ebx v_record hb, ebx_fields_sum _ h32⟩,
    ⟨_, _, _, _, _, _, intel_version_ints hw v_eax_intel v_ebx v_record hi,
      intel_fields_sum _⟩,
    ⟨_, _, _, _, _, amd_version_ints hw v_eax_amd v_ebx v_record ha, amd_fields_sum _⟩⟩

/-- Witness of C18: EAX = 0xF009F6EA, with every padding bit set, and
EBX = 0x12345678. -/
theorem decoding_loses_only_padding_witness :
    6 ≤ (record_of_size 6).length ∧ 5 ≤ (record_of_size 5).length ∧
    4 ≤ (record_of_size 4).length ∧ (hw_906ea_amd_padding.cpuid 1 0).ebx < 2 ^ 32 ∧
    (0xF009F6EA : Nat) &&& 0x0FFF3FFF = 0x000936EA ∧
    (0xF009F6EA : Nat) &&& 0x0FFF0FFF = 0x000906EA ∧
    (∃ stepping model family type emodel efamily : Nat,
      ((intel_cpuid_version_and_feature_information hw_906ea_amd_padding (record_of_size 6)
          (record_of_size 4) (record_of_size 4)).v_eax.take 6).map Value.toInt? =
        [some (stepping : Int), some (model : Int), some (family : Int), some (type : Int),
          some (emodel : Int), some (efamily : Int)] ∧
      stepping + model * 2 ^ 4 + family * 2 ^ 8 + type * 2 ^ 12 + emodel * 2 ^ 16
        + efamily * 2 ^ 20 = (hw_906ea_amd_padding.cpuid 1 0).eax &&& 0x0FFF3FFF) :=
  ⟨by decide, by decide, by decide, by decide, by decide, by decide,
    (decoding_loses_only_padding hw_906ea_amd_padding (record_of_size 6) (record_of_size 5)
      (record_of_size 4) (record_of_size 4) (by decide) (by decide) (by decide)
      (by decide)).2.1⟩

end Cpuid
